import Mathlib

/-!
Verification development for the composite-image renderer
(`src/internal/drawCompositeImage.js` of the cornerstone repository).

The JavaScript source is embedded shallowly:

* numeric values are rationals (`ℚ`);
* JavaScript objects become Lean structures; a field that may be
  `undefined` in the source becomes an `Option`;
* in-place mutation of the shared layer objects becomes explicit state
  passing: the state is the list of all layers of the enabled element, a
  layer object is identified by its `layerId`, and every "mutation"
  rewrites the list entry carrying that id (object references in the
  source are modelled by fresh lookups by id);
* a thrown exception becomes `Except.error`; property access on
  `undefined` is the `typeErrUndefined` error;
* the external collaborators (`getImageFitScale`, the trigonometric
  functions used by the transform) are parameters of the embedded
  functions;
* calls into the external per-modality rasterizers and the canvas are
  recorded as an event trace (`Ev`) instead of performing I/O.
-/

set_option maxRecDepth 10000

/-- JavaScript exceptions that the embedded code can raise:
the explicit invalid-argument `Error` thrown by `rescaleImage` when both
arguments are the same layer, and the implicit `TypeError` raised by a
property access on `undefined`. -/
inductive JsErr where
  | invalidArgumentSameLayer
  | typeErrUndefined
deriving DecidableEq

/-- A 2-D point, used for translations and displayed-area corners. -/
structure Point where
  x : ℚ
  y : ℚ
deriving DecidableEq

/-- The per-layer sync snapshot (`layer.syncProps` in the source):
the baseline scale captured at the last synchronization point. -/
structure SyncProps where
  originalScale : ℚ
deriving DecidableEq

/-- The displayed-area rectangle of a viewport, with its top-left-hand
and bottom-right-hand corners and its column pixel spacing. -/
structure DisplayedArea where
  tlhc : Point
  brhc : Point
  columnPixelSpacing : ℚ
deriving DecidableEq

/-- A layer's viewport (scale, rotation in degrees, translation, flips,
displayed area, optional colormap/labelmap, pixel-replication flag). -/
structure Viewport where
  scale : ℚ
  rotation : ℚ
  translation : Point
  hflip : Bool
  vflip : Bool
  displayedArea : DisplayedArea
  colormap : Option String := none
  labelmap : Option Bool := none
  pixelReplication : Bool := false
deriving DecidableEq

/-- An image: source identifier, pixel dimensions, physical pixel
spacing, and the color-vs-grayscale flag.  A missing (`undefined`)
`imageId` is modelled by the empty string, which is equally falsy in the
source's `!imageId` test. -/
structure Image where
  imageId : String
  width : ℚ
  height : ℚ
  rowPixelSpacing : ℚ
  columnPixelSpacing : ℚ
  color : Bool := false
deriving DecidableEq

/-- A layer's render options (`layer.options`). -/
structure LayerOptions where
  name : Option String := none
  opacity : Option ℚ := none
  fillStyle : Option String := none
  colormap : Option String := none
  reSize : Bool := false
deriving DecidableEq

/-- One layer of the enabled element.  `visible` models membership in
the registry's visible-layers list (the registry itself is an external
collaborator that returns the visible layers in draw order). -/
structure Layer where
  layerId : Nat
  image : Option Image := none
  viewport : Option Viewport := none
  options : Option LayerOptions := none
  syncProps : Option SyncProps := none
  invalid : Bool := false
  visible : Bool := true
deriving DecidableEq

/-- The output canvas (only its dimensions matter to the geometry). -/
structure Canvas where
  width : ℚ
  height : ℚ
deriving DecidableEq

/-- The result record of the external `getImageFitScale` collaborator. -/
structure FitScaleResult where
  horizontalScale : ℚ
  verticalScale : ℚ
  scaleFactor : ℚ
deriving DecidableEq

/-- The state of the enabled element that `drawCompositeImage` reads and
writes: the layer registry, the id of the active layer, the per-view
sync flag and its stored previous value, and the canvas. -/
structure EnabledElement where
  layers : List Layer
  activeLayerId : Nat
  syncViewports : Bool
  lastSyncViewportsState : Bool
  canvas : Canvas
deriving DecidableEq

deriving instance DecidableEq for Except

/-- Whether `as` is a prefix of `bs` (character lists). -/
def charsStartWith : List Char → List Char → Bool
  | [], _ => true
  | _ :: _, [] => false
  | a :: as, b :: bs => a == b && charsStartWith as bs

/-- Whether `pat` occurs contiguously inside the second list. -/
def charsContain (pat : List Char) : List Char → Bool
  | [] => charsStartWith pat []
  | b :: bs => charsStartWith pat (b :: bs) || charsContain pat bs

/-- `s.indexOf(pat) > -1` of JavaScript strings: substring containment. -/
def strContains (s pat : String) : Bool :=
  charsContain pat.data s.data

/-- The string literal used to recognize PET layers. -/
def petName : String := "PET"

/-- The image-id tag marking a PET multi-planar-reformat image. -/
def petmprTag : String := "petmpr"

/-- The image-id tag marking the axial variant of a PET reformat. -/
def axialTag : String := "Axial"

/-- `rescaleImage(baseLayer, targetLayer)` (source lines 302-322).
Rescales the target layer against the base layer; throws when both
arguments carry the same layer identity, returns without mutation when
either image lacks a source identifier, otherwise overwrites the target
viewport's scale.  The returned layer is the (possibly) mutated target. -/
def rescaleImage (baseLayer targetLayer : Layer) : Except JsErr Layer :=
  if baseLayer.layerId = targetLayer.layerId then
    .error .invalidArgumentSameLayer
  else
    match baseLayer.image, targetLayer.image with
    | some baseImage, some targetImage =>
      -- Return if these images don't have an imageId (e.g. for dynamic images)
      if baseImage.imageId = "" ∨ targetImage.imageId = "" then
        .ok targetLayer
      else
        match baseLayer.viewport, targetLayer.viewport with
        | some bv, some tv =>
          let colRelative := (tv.displayedArea.columnPixelSpacing * targetImage.width) /
            (bv.displayedArea.columnPixelSpacing * baseImage.width)
          let viewportRatio := tv.scale / bv.scale * colRelative
          .ok { targetLayer with viewport := some { tv with scale := bv.scale * viewportRatio } }
        | _, _ => .error .typeErrUndefined
    | _, _ => .error .typeErrUndefined

/-! ### Claims C2, C3, C4: the layer rescaler -/

/-- Claim C3: for every layer `A`, `rescaleImage A A` (both arguments the
same layer identity) raises the invalid-argument error immediately; it is
not swallowed and the call does not silently no-op. -/
theorem rescaleImage_self_invalidArgument (A : Layer) :
    rescaleImage A A = .error .invalidArgumentSameLayer := by
  simp [rescaleImage]

/-- Claim C2: for a base layer and a distinct target layer whose images
both have a source identifier, `rescaleImage` sets the target viewport's
scale to `base.scale * ratio` with
`ratio = (target.scale / base.scale) * colRelative` and
`colRelative = (target column spacing * target width) / (base column
spacing * base width)`; every other field is left unchanged. -/
theorem rescaleImage_scale_formula (base target : Layer) (bi ti : Image) (bv tv : Viewport)
    (hid : base.layerId ≠ target.layerId)
    (hbi : base.image = some bi) (hti : target.image = some ti)
    (hbid : bi.imageId ≠ "") (htid : ti.imageId ≠ "")
    (hbv : base.viewport = some bv) (htv : target.viewport = some tv) :
    rescaleImage base target = .ok { target with viewport := some { tv with scale :=
      bv.scale * (tv.scale / bv.scale *
        ((tv.displayedArea.columnPixelSpacing * ti.width) /
          (bv.displayedArea.columnPixelSpacing * bi.width))) } } := by
  simp [rescaleImage, hid, hbi, hti, hbid, htid, hbv, htv]

/-- Base image of the C2 scenario: width 256, column spacing 1. -/
def c2BaseImage : Image :=
  { imageId := "ct-1", width := 256, height := 256,
    rowPixelSpacing := 1, columnPixelSpacing := 1 }

/-- Target image of the C2 scenario: width 512. -/
def c2TargetImage : Image :=
  { imageId := "pt-1", width := 512, height := 512,
    rowPixelSpacing := 1, columnPixelSpacing := 1 }

/-- Base viewport of the C2 scenario: scale 1.0, column spacing 1.0. -/
def c2BaseVp : Viewport :=
  { scale := 1, rotation := 0, translation := { x := 0, y := 0 },
    hflip := false, vflip := false,
    displayedArea := { tlhc := { x := 1, y := 1 }, brhc := { x := 256, y := 256 },
                       columnPixelSpacing := 1 } }

/-- Target viewport of the C2 scenario: scale 2.0, column spacing 0.5. -/
def c2TargetVp : Viewport :=
  { scale := 2, rotation := 0, translation := { x := 0, y := 0 },
    hflip := false, vflip := false,
    displayedArea := { tlhc := { x := 1, y := 1 }, brhc := { x := 512, y := 512 },
                       columnPixelSpacing := 1/2 } }

/-- Base layer of the C2 scenario. -/
def c2Base : Layer :=
  { layerId := 0, image := some c2BaseImage, viewport := some c2BaseVp }

/-- Target layer of the C2 scenario. -/
def c2Target : Layer :=
  { layerId := 1, image := some c2TargetImage, viewport := some c2TargetVp }

/-- Witness for claim C2, at the spec's scenario: base scale 1.0, target
scale 2.0, target column spacing 0.5 and width 512, base column spacing
1.0 and width 256; the resulting target scale is 2.0 (unchanged). -/
theorem rescaleImage_scale_formula_witness :
    rescaleImage c2Base c2Target = .ok { c2Target with viewport := some { c2TargetVp with
      scale := c2BaseVp.scale * (c2TargetVp.scale / c2BaseVp.scale *
        ((c2TargetVp.displayedArea.columnPixelSpacing * c2TargetImage.width) /
          (c2BaseVp.displayedArea.columnPixelSpacing * c2BaseImage.width))) } } ∧
    c2BaseVp.scale * (c2TargetVp.scale / c2BaseVp.scale *
        ((c2TargetVp.displayedArea.columnPixelSpacing * c2TargetImage.width) /
          (c2BaseVp.displayedArea.columnPixelSpacing * c2BaseImage.width))) = 2 := by
  constructor
  · exact rescaleImage_scale_formula c2Base c2Target c2BaseImage c2TargetImage c2BaseVp
      c2TargetVp (by decide) rfl rfl (by decide) (by decide) rfl rfl
  · norm_num [c2BaseVp, c2TargetVp, c2BaseImage, c2TargetImage]

/-- Claim C4: for two distinct layers whose images exist, if either image
lacks a source identifier then `rescaleImage` returns the target
unchanged (no mutation) and raises no error. -/
theorem rescaleImage_noop_missingImageId (A B : Layer) (ai bi : Image)
    (hid : A.layerId ≠ B.layerId)
    (hai : A.image = some ai) (hbi : B.image = some bi)
    (hmiss : ai.imageId = "" ∨ bi.imageId = "") :
    rescaleImage A B = .ok B := by
  rcases hmiss with h | h <;> simp [rescaleImage, hid, hai, hbi, h]

/-- Layer with a sourceless (dynamic) image for the C4 witness. -/
def c4Dynamic : Layer :=
  { layerId := 7,
    image := some
      { imageId := "", width := 64, height := 64,
        rowPixelSpacing := 1, columnPixelSpacing := 1 } }

/-- Ordinary layer for the C4 witness. -/
def c4Other : Layer :=
  { layerId := 8,
    image := some
      { imageId := "ct-2", width := 64, height := 64,
        rowPixelSpacing := 1, columnPixelSpacing := 1 },
    viewport := some c2BaseVp }

/-- Witness for claim C4: with the target's image lacking a source
identifier, the call is a no-op returning the target unchanged. -/
theorem rescaleImage_noop_missingImageId_witness :
    c4Other.layerId ≠ c4Dynamic.layerId ∧
    rescaleImage c4Other c4Dynamic = .ok c4Dynamic :=
  ⟨by decide, rescaleImage_noop_missingImageId c4Other c4Dynamic _ _ (by decide) rfl rfl
    (Or.inr rfl)⟩

/-! ### Viewport sync state and synchronizer (source lines 10-61) -/

/-- Look a layer up by id: the model of following an object reference
into the enabled element's layer registry. -/
def findLayer : List Layer → Nat → Option Layer
  | [], _ => none
  | l :: ls, i => if l.layerId = i then some l else findLayer ls i

/-- Write a layer back into the state: every entry carrying the written
layer's id is replaced.  With distinct ids this is exactly the in-place
mutation of the shared object that the source performs. -/
def setLayer : List Layer → Layer → List Layer
  | [], _ => []
  | x :: xs, l => (if x.layerId = l.layerId then l else x) :: setLayer xs l

/-- `updateLayerSyncProps(layer)` (source lines 22-29): records the
current viewport scale as the snapshot's `originalScale`.  Every call
site in the source guards on the viewport being present, so the `none`
branch is unreachable there. -/
def updateLayerSyncProps (layer : Layer) : Layer :=
  match layer.viewport with
  | some v => { layer with syncProps := some { originalScale := v.scale } }
  | none => layer

/-- The lazy-capture step of `getViewportRatio` and `syncViewports`
(`if (!layer.syncProps) updateLayerSyncProps(layer)`). -/
def captureIfMissing (layer : Layer) : Layer :=
  if layer.syncProps.isNone then updateLayerSyncProps layer else layer

/-- `layer.syncProps.originalScale`.  At every use in the source the
snapshot was just captured, so the `none` default is unreachable. -/
def snapScale (layer : Layer) : ℚ :=
  match layer.syncProps with
  | some sp => sp.originalScale
  | none => 0

/-- `getViewportRatio(baseLayer, targetLayer)` (source lines 10-20):
lazily captures a snapshot on either layer, then returns the two
(possibly captured-into) layers together with the ratio
`target.syncProps.originalScale / base.syncProps.originalScale`. -/
def getViewportRatio (baseLayer targetLayer : Layer) : Layer × Layer × ℚ :=
  let base := captureIfMissing baseLayer
  let target := captureIfMissing targetLayer
  (base, target, snapScale target / snapScale base)

/-- One iteration of the `layers.forEach` in `syncViewports` (source
lines 35-60), acting on the layer with id `lid`: skip the active layer
and pairs lacking a viewport; otherwise capture a missing snapshot on
the layer, compute the viewport ratio against the active layer (which
may capture the active layer's snapshot), and overwrite the layer's
scale, rotation, translation and flip flags from the active layer's
viewport.  Both touched objects are written back into the state. -/
def syncStep (aid : Nat) (s : List Layer) (lid : Nat) : List Layer :=
  match findLayer s lid, findLayer s aid with
  | some layer, some active =>
    if lid = aid then s
    else
      match layer.viewport, active.viewport with
      | some lv, some av =>
        let layer1 := captureIfMissing layer
        let gvr := getViewportRatio active layer1
        let active1 := gvr.1
        let layer2 := gvr.2.1
        let viewportRatio := gvr.2.2
        let layer3 := { layer2 with viewport := some { lv with
          scale := av.scale * viewportRatio,
          rotation := av.rotation,
          translation := { x := av.translation.x / viewportRatio,
                           y := av.translation.y / viewportRatio },
          hflip := av.hflip, vflip := av.vflip } }
        setLayer (setLayer s active1) layer3
      | _, _ => s
  | _, _ => s

/-- `syncViewports(layers, activeLayer)` (source lines 32-61), as a fold
of `syncStep` over the ids of the given layers.  The source iterates an
array of shared object references, mutating them in place; here the
state is the full layer list and every iteration follows its reference
by a fresh lookup by id. -/
def syncViewports (s : List Layer) (ids : List Nat) (aid : Nat) : List Layer :=
  match ids with
  | [] => s
  | lid :: rest => syncViewports (syncStep aid s lid) rest aid

/-! ### Lookup/write-back toolkit -/

theorem findLayer_eq_id {s : List Layer} {i : Nat} {l : Layer}
    (h : findLayer s i = some l) : l.layerId = i := by
  induction s with
  | nil => simp [findLayer] at h
  | cons x xs ih =>
    rw [findLayer] at h
    split at h
    · rename_i hx
      cases h
      exact hx
    · exact ih h

theorem findLayer_setLayer_ne {s : List Layer} {l : Layer} {i : Nat}
    (h : i ≠ l.layerId) : findLayer (setLayer s l) i = findLayer s i := by
  induction s with
  | nil => rfl
  | cons x xs ih =>
    by_cases hx : x.layerId = l.layerId
    · have h1 : l.layerId ≠ i := fun hh => h hh.symm
      have h2 : x.layerId ≠ i := by rw [hx]; exact h1
      rw [setLayer, if_pos hx, findLayer, findLayer, if_neg h1, if_neg h2]
      exact ih
    · rw [setLayer, if_neg hx, findLayer, findLayer]
      by_cases hxi : x.layerId = i
      · rw [if_pos hxi, if_pos hxi]
      · rw [if_neg hxi, if_neg hxi]
        exact ih

theorem findLayer_setLayer_self {s : List Layer} {l : Layer}
    (h : (findLayer s l.layerId).isSome = true) :
    findLayer (setLayer s l) l.layerId = some l := by
  induction s with
  | nil => simp [findLayer] at h
  | cons x xs ih =>
    by_cases hx : x.layerId = l.layerId
    · simp [setLayer, if_pos hx, findLayer]
    · rw [findLayer, if_neg hx] at h
      rw [setLayer, if_neg hx, findLayer, if_neg hx]
      exact ih h

theorem map_layerId_setLayer (s : List Layer) (l : Layer) :
    (setLayer s l).map Layer.layerId = s.map Layer.layerId := by
  induction s with
  | nil => rfl
  | cons x xs ih =>
    by_cases hx : x.layerId = l.layerId
    · simp [setLayer, if_pos hx, ih, hx]
    · simp [setLayer, if_neg hx, ih]

@[simp]
theorem updateLayerSyncProps_layerId (l : Layer) :
    (updateLayerSyncProps l).layerId = l.layerId := by
  rcases hv : l.viewport with _ | v <;> simp [updateLayerSyncProps, hv]

@[simp]
theorem updateLayerSyncProps_viewport (l : Layer) :
    (updateLayerSyncProps l).viewport = l.viewport := by
  rcases hv : l.viewport with _ | v <;> simp [updateLayerSyncProps, hv]

@[simp]
theorem captureIfMissing_layerId (l : Layer) :
    (captureIfMissing l).layerId = l.layerId := by
  by_cases hs : l.syncProps.isNone <;> simp [captureIfMissing, hs]

@[simp]
theorem captureIfMissing_viewport (l : Layer) :
    (captureIfMissing l).viewport = l.viewport := by
  by_cases hs : l.syncProps.isNone <;> simp [captureIfMissing, hs]

theorem captureIfMissing_of_isSome {l : Layer} (h : l.syncProps.isSome = true) :
    captureIfMissing l = l := by
  have hn : l.syncProps.isNone = false := by
    rcases hsp : l.syncProps with _ | sp <;> simp_all
  simp [captureIfMissing, hn]

theorem captureIfMissing_syncProps_isSome {l : Layer} {v : Viewport}
    (hv : l.viewport = some v) :
    (captureIfMissing l).syncProps.isSome = true := by
  by_cases hs : l.syncProps.isNone
  · simp [captureIfMissing, hs, updateLayerSyncProps, hv]
  · rcases hsp : l.syncProps with _ | sp
    · simp [hsp] at hs
    · simp [captureIfMissing, hs, hsp]

theorem findLayer_setLayer_id {s : List Layer} {l : Layer} {i : Nat}
    (hl : l.layerId = i) (h : (findLayer s i).isSome = true) :
    findLayer (setLayer s l) i = some l := by
  subst hl
  exact findLayer_setLayer_self h

theorem captureIfMissing_idem (l : Layer) :
    captureIfMissing (captureIfMissing l) = captureIfMissing l := by
  by_cases hs : l.syncProps.isNone
  · rcases hv : l.viewport with _ | v <;>
      simp [captureIfMissing, updateLayerSyncProps, hs, hv]
  · simp [captureIfMissing, hs]

theorem snapScale_congr {a b : Layer} (h : a.syncProps = b.syncProps) :
    snapScale a = snapScale b := by
  unfold snapScale
  rw [h]

/-- The layer value produced for a non-active layer by one `syncViewports`
iteration (the body of source lines 44-59, with both lazy captures
already folded in). -/
def syncedLayer (L A : Layer) (lv av : Viewport) : Layer :=
  { captureIfMissing L with viewport := some { lv with
      scale := av.scale * (snapScale (captureIfMissing L) / snapScale (captureIfMissing A)),
      rotation := av.rotation,
      translation := { x := av.translation.x / (snapScale (captureIfMissing L) / snapScale (captureIfMissing A)),
                       y := av.translation.y / (snapScale (captureIfMissing L) / snapScale (captureIfMissing A)) },
      hflip := av.hflip, vflip := av.vflip } }

@[simp]
theorem syncedLayer_layerId (L A : Layer) (lv av : Viewport) :
    (syncedLayer L A lv av).layerId = L.layerId := by
  simp [syncedLayer]

@[simp]
theorem syncedLayer_syncProps (L A : Layer) (lv av : Viewport) :
    (syncedLayer L A lv av).syncProps = (captureIfMissing L).syncProps := rfl

theorem syncStep_processed_eq {aid lid : Nat} {s : List Layer} {L A : Layer} {lv av : Viewport}
    (hne : lid ≠ aid)
    (hL : findLayer s lid = some L) (hA : findLayer s aid = some A)
    (hlv : L.viewport = some lv) (hav : A.viewport = some av) :
    syncStep aid s lid = setLayer (setLayer s (captureIfMissing A)) (syncedLayer L A lv av) := by
  simp [syncStep, hL, hA, hne, hlv, hav, getViewportRatio, captureIfMissing_idem, syncedLayer]

theorem syncStep_self (aid : Nat) (s : List Layer) : syncStep aid s aid = s := by
  rcases h : findLayer s aid with _ | a <;> simp [syncStep, h]

theorem syncStep_findLayer_other {aid k j : Nat} {s : List Layer}
    (hj1 : j ≠ k) (hj2 : j ≠ aid) :
    findLayer (syncStep aid s k) j = findLayer s j := by
  rcases hk : findLayer s k with _ | layer
  · simp [syncStep, hk]
  · rcases ha : findLayer s aid with _ | active
    · simp [syncStep, hk, ha]
    · by_cases hka : k = aid
      · simp [syncStep, hk, ha, hka]
      · rcases hlv : layer.viewport with _ | lv
        · simp [syncStep, hk, ha, hka, hlv]
        · rcases hav : active.viewport with _ | av
          · simp [syncStep, hk, ha, hka, hlv, hav]
          · rw [syncStep_processed_eq hka hk ha hlv hav]
            rw [findLayer_setLayer_ne, findLayer_setLayer_ne]
            · simpa [captureIfMissing_layerId, findLayer_eq_id ha] using hj2
            · simpa [syncedLayer_layerId, findLayer_eq_id hk] using hj1

theorem syncStep_findLayer_aid {aid k : Nat} {s : List Layer} {A : Layer}
    (ha : findLayer s aid = some A) :
    findLayer (syncStep aid s k) aid = some A ∨
    findLayer (syncStep aid s k) aid = some (captureIfMissing A) := by
  rcases hk : findLayer s k with _ | layer
  · left
    simp [syncStep, hk, ha]
  · by_cases hka : k = aid
    · left
      subst hka
      rw [syncStep_self]
      exact ha
    · rcases hlv : layer.viewport with _ | lv
      · left
        simp [syncStep, hk, ha, hka, hlv]
      · rcases hav : A.viewport with _ | av
        · left
          simp [syncStep, hk, ha, hka, hlv, hav]
        · right
          rw [syncStep_processed_eq hka hk ha hlv hav]
          rw [findLayer_setLayer_ne, findLayer_setLayer_id]
          · simp [captureIfMissing_layerId]
            exact findLayer_eq_id ha
          · simp [ha]
          · simpa [syncedLayer_layerId, findLayer_eq_id hk] using Ne.symm hka

theorem syncStep_findLayer_aid_stable {aid k : Nat} {s : List Layer} {A : Layer}
    (ha : findLayer s aid = some A) (hsp : A.syncProps.isSome = true) :
    findLayer (syncStep aid s k) aid = some A := by
  rcases syncStep_findLayer_aid (k := k) ha with h | h
  · exact h
  · rwa [captureIfMissing_of_isSome hsp] at h

theorem syncViewports_preserve {rest : List Nat} {s : List Layer} {aid lid : Nat}
    {A1 L1 : Layer}
    (hA : findLayer s aid = some A1) (hsp : A1.syncProps.isSome = true)
    (hL : findLayer s lid = some L1) (hne : lid ≠ aid) (hnm : lid ∉ rest) :
    findLayer (syncViewports s rest aid) aid = some A1 ∧
    findLayer (syncViewports s rest aid) lid = some L1 := by
  induction rest generalizing s with
  | nil => exact ⟨hA, hL⟩
  | cons k ks ih =>
    have hk1 : lid ≠ k := fun hh => hnm (by rw [hh]; exact List.mem_cons_self k ks)
    have hnm' : lid ∉ ks := fun hh => hnm (List.mem_cons_of_mem _ hh)
    rw [syncViewports]
    exact ih (syncStep_findLayer_aid_stable hA hsp)
      (by rw [syncStep_findLayer_other hk1 hne]; exact hL) hnm'

/-! ### Claim C1: the viewport synchronizer -/

/-- Claim C1: after `syncViewports(layers, activeLayer)`, every layer of
the given set other than the active layer such that both it and the
active layer have a viewport ends up with: scale equal to the active
layer's scale times `r`, rotation equal to the active layer's rotation,
translation equal to the active layer's translation divided by `r` in
both components, and flip flags equal to the active layer's — where `r`
is `getViewportRatio(activeLayer, layer)` evaluated on the synchronized
layers (both snapshots exist after the pass, so the lazy captures inside
`getViewportRatio` are no-ops there).  The active layer's own viewport
is untouched. -/
theorem syncViewports_spec (s : List Layer) (ids : List Nat) (aid lid : Nat)
    (A L : Layer) (av lv : Viewport)
    (hids : ids.Nodup) (hmem : lid ∈ ids) (hne : lid ≠ aid)
    (hA : findLayer s aid = some A) (hav : A.viewport = some av)
    (hL : findLayer s lid = some L) (hlv : L.viewport = some lv) :
    ∃ A' L', findLayer (syncViewports s ids aid) aid = some A' ∧
      findLayer (syncViewports s ids aid) lid = some L' ∧
      A'.viewport = some av ∧
      L'.viewport = some { lv with
        scale := av.scale * (getViewportRatio A' L').2.2,
        rotation := av.rotation,
        translation := { x := av.translation.x / (getViewportRatio A' L').2.2,
                         y := av.translation.y / (getViewportRatio A' L').2.2 },
        hflip := av.hflip, vflip := av.vflip } := by
  induction ids generalizing s A L with
  | nil => cases hmem
  | cons k ks ih =>
    rw [syncViewports]
    by_cases hk : lid = k
    · subst hk
      rw [syncStep_processed_eq hne hL hA hlv hav]
      have hAcap : (captureIfMissing A).syncProps.isSome = true :=
        captureIfMissing_syncProps_isSome hav
      have hLcap : (captureIfMissing L).syncProps.isSome = true :=
        captureIfMissing_syncProps_isSome hlv
      have hA1 : findLayer (setLayer (setLayer s (captureIfMissing A))
          (syncedLayer L A lv av)) aid = some (captureIfMissing A) := by
        rw [findLayer_setLayer_ne, findLayer_setLayer_id]
        · simpa [captureIfMissing_layerId] using findLayer_eq_id hA
        · simp [hA]
        · simpa [syncedLayer_layerId, findLayer_eq_id hL] using Ne.symm hne
      have hL3 : findLayer (setLayer (setLayer s (captureIfMissing A))
          (syncedLayer L A lv av)) lid = some (syncedLayer L A lv av) := by
        rw [findLayer_setLayer_id]
        · simpa [syncedLayer_layerId] using findLayer_eq_id hL
        · rw [findLayer_setLayer_ne]
          · simp [hL]
          · simpa [captureIfMissing_layerId, findLayer_eq_id hA] using hne
      have hnm : lid ∉ ks := (List.nodup_cons.mp hids).1
      obtain ⟨hA', hL'⟩ := syncViewports_preserve hA1 hAcap hL3 hne hnm
      refine ⟨captureIfMissing A, syncedLayer L A lv av, hA', hL', ?_, ?_⟩
      · rw [captureIfMissing_viewport]
        exact hav
      · have h1 : captureIfMissing (captureIfMissing A) = captureIfMissing A :=
          captureIfMissing_of_isSome hAcap
        have h2 : captureIfMissing (syncedLayer L A lv av) = syncedLayer L A lv av := by
          apply captureIfMissing_of_isSome
          rw [syncedLayer_syncProps]
          exact hLcap
        have hr : (getViewportRatio (captureIfMissing A) (syncedLayer L A lv av)).2.2 =
            snapScale (captureIfMissing L) / snapScale (captureIfMissing A) := by
          simp only [getViewportRatio, h1, h2]
          rw [snapScale_congr (syncedLayer_syncProps L A lv av)]
        rw [hr]
        rfl
    · have hmem' : lid ∈ ks := (List.mem_cons.mp hmem).resolve_left hk
      have hL' : findLayer (syncStep aid s k) lid = some L := by
        rw [syncStep_findLayer_other hk hne]
        exact hL
      rcases syncStep_findLayer_aid (k := k) hA with hA' | hA'
      · exact ih _ _ _ (List.Nodup.of_cons hids) hmem' hA' hav hL' hlv
      · have hav' : (captureIfMissing A).viewport = some av := by
          rw [captureIfMissing_viewport]
          exact hav
        exact ih _ _ _ (List.Nodup.of_cons hids) hmem' hA' hav' hL' hlv

/-- Active-layer viewport for the C1 witness. -/
def c1ActiveVp : Viewport :=
  { scale := 2, rotation := 45, translation := { x := 10, y := 20 },
    hflip := true, vflip := false,
    displayedArea := { tlhc := { x := 1, y := 1 }, brhc := { x := 256, y := 256 },
                       columnPixelSpacing := 1 } }

/-- Non-active-layer viewport for the C1 witness. -/
def c1OtherVp : Viewport :=
  { scale := 3, rotation := 0, translation := { x := 0, y := 0 },
    hflip := false, vflip := true,
    displayedArea := { tlhc := { x := 1, y := 1 }, brhc := { x := 512, y := 512 },
                       columnPixelSpacing := 1 } }

/-- Active layer for the C1 witness (snapshot already captured). -/
def c1Active : Layer :=
  { layerId := 0, viewport := some c1ActiveVp, syncProps := some { originalScale := 2 } }

/-- Non-active layer for the C1 witness (snapshot already captured). -/
def c1Other : Layer :=
  { layerId := 1, viewport := some c1OtherVp, syncProps := some { originalScale := 6 } }

/-- Witness for claim C1 on a concrete two-layer registry. -/
theorem syncViewports_spec_witness :
    ([0, 1] : List Nat).Nodup ∧ (1 : Nat) ∈ ([0, 1] : List Nat) ∧ (1 : Nat) ≠ 0 ∧
    findLayer [c1Active, c1Other] 0 = some c1Active ∧
    c1Active.viewport = some c1ActiveVp ∧
    findLayer [c1Active, c1Other] 1 = some c1Other ∧
    c1Other.viewport = some c1OtherVp ∧
    (∃ A' L', findLayer (syncViewports [c1Active, c1Other] [0, 1] 0) 0 = some A' ∧
      findLayer (syncViewports [c1Active, c1Other] [0, 1] 0) 1 = some L' ∧
      A'.viewport = some c1ActiveVp ∧
      L'.viewport = some { c1OtherVp with
        scale := c1ActiveVp.scale * (getViewportRatio A' L').2.2,
        rotation := c1ActiveVp.rotation,
        translation := { x := c1ActiveVp.translation.x / (getViewportRatio A' L').2.2,
                         y := c1ActiveVp.translation.y / (getViewportRatio A' L').2.2 },
        hflip := c1ActiveVp.hflip, vflip := c1ActiveVp.vflip }) :=
  ⟨by decide, by decide, by decide, rfl, rfl, rfl, rfl,
    syncViewports_spec [c1Active, c1Other] [0, 1] 0 1 c1Active c1Other c1ActiveVp c1OtherVp
      (by decide) (by decide) (by decide) rfl rfl rfl rfl⟩

/-! ### Claims C8, C9: rasterizer dispatch and opacity handling -/

/-- Truthiness of an optional JavaScript string: `undefined` and the
empty string are falsy, every other string is truthy. -/
def truthyStr : Option String → Bool
  | some str => str ≠ ""
  | none => false

/-- The external rasterizer invoked for a layer (source lines 98-108). -/
inductive RenderOp where
  | labelMap
  | pseudoColor
  | trueColor
  | grayscale (useAlphaChannel : Bool)
deriving DecidableEq

/-- The rasterizer dispatch of `renderLayers` (source lines 98-108).
`colormap` is the already-resolved `layer.viewport.colormap ||
layer.options.colormap`; `labelmap` is `layer.viewport.labelmap` (the
source compares it to `true` with strict equality); `color` is
`layer.image.color === true`; `index` is the layer's position in draw
order, and the grayscale renderer receives `useAlphaChannel = (index ===
0)`. -/
def chooseRenderer (colormap : Option String) (labelmap : Option Bool)
    (color : Bool) (index : Nat) : RenderOp :=
  if truthyStr colormap && labelmap == some true then .labelMap
  else if truthyStr colormap then .pseudoColor
  else if color then .trueColor
  else .grayscale (index == 0)

/-- Claim C8: the rasterizer is selected by the fixed precedence
label-map (colormap set and labelmap flag true) > pseudo-color (colormap
set) > true-color (image flagged color) > grayscale, and the grayscale
renderer requests alpha-channel compositing exactly when the layer is at
index 0 in draw order. -/
theorem chooseRenderer_precedence (colormap : Option String) (labelmap : Option Bool)
    (color : Bool) (index : Nat) :
    (chooseRenderer colormap labelmap color index = .labelMap ↔
      truthyStr colormap = true ∧ labelmap = some true) ∧
    (chooseRenderer colormap labelmap color index = .pseudoColor ↔
      truthyStr colormap = true ∧ labelmap ≠ some true) ∧
    (chooseRenderer colormap labelmap color index = .trueColor ↔
      truthyStr colormap = false ∧ color = true) ∧
    (∀ a, chooseRenderer colormap labelmap color index = .grayscale a ↔
      truthyStr colormap = false ∧ color = false ∧ a = (index == 0)) := by
  unfold chooseRenderer
  by_cases h1 : truthyStr colormap = true
  · by_cases h2 : labelmap = some true
    · simp [h1, h2]
    · have h2b : (labelmap == some true) = false := by
        simpa using h2
      simp [h1, h2, h2b]
  · have h1b : truthyStr colormap = false := by
      simpa using h1
    by_cases h3 : color = true
    · simp [h1b, h3]
    · have h3b : color = false := by
        simpa using h3
      simp [h1b, h3b]

/-- The global-alpha assignment of `renderLayers` (source lines 111-116):
`context.globalAlpha = layer.options.opacity` when the options object
exists and its opacity value is truthy, and `1` otherwise (a JavaScript
opacity of `0` is falsy). -/
def computeGlobalAlpha (options : Option LayerOptions) : ℚ :=
  match options with
  | some o =>
    match o.opacity with
    | some q => if q ≠ 0 then q else 1
    | none => 1
  | none => 1

/-- Claim C9: the drawing context's global alpha is the layer's opacity
option only when that value is truthy; with the options absent, the
opacity absent, or an explicit opacity of `0`, the alpha is `1` — so a
zero opacity renders the layer fully opaque rather than invisible. -/
theorem computeGlobalAlpha_spec (o : LayerOptions) (q : ℚ) :
    computeGlobalAlpha none = 1 ∧
    computeGlobalAlpha (some { o with opacity := none }) = 1 ∧
    computeGlobalAlpha (some { o with opacity := some 0 }) = 1 ∧
    (q ≠ 0 → computeGlobalAlpha (some { o with opacity := some q }) = q) := by
  refine ⟨rfl, rfl, ?_, fun hq => ?_⟩
  · simp [computeGlobalAlpha]
  · simp [computeGlobalAlpha, hq]

/-! ### Claim C7: the PET fusion transform -/

/-- Modelled from the spec: the 2-D affine transform collaborator
(`internal/transform.js`, a file of this repository that is not among
the sources here).  Per §3 of the spec it is a matrix of 6 coefficients
(linear 2×2 plus translation) composed via ordered
translate/rotate/scale operations, each right-composing onto the
accumulated transform (§4.4), in the canvas `(a b c d e f)` convention. -/
structure Transform where
  m0 : ℚ
  m1 : ℚ
  m2 : ℚ
  m3 : ℚ
  m4 : ℚ
  m5 : ℚ
deriving DecidableEq

/-- The identity transform (a fresh `new Transform()`). -/
def Transform.identity : Transform := ⟨1, 0, 0, 1, 0, 0⟩

/-- Right-multiply the accumulated matrix by `(a b c d e f)`. -/
def Transform.multiply (t : Transform) (a b c d e f : ℚ) : Transform :=
  { m0 := t.m0 * a + t.m2 * b
    m1 := t.m1 * a + t.m3 * b
    m2 := t.m0 * c + t.m2 * d
    m3 := t.m1 * c + t.m3 * d
    m4 := t.m0 * e + t.m2 * f + t.m4
    m5 := t.m1 * e + t.m3 * f + t.m5 }

/-- Right-compose a translation. -/
def Transform.translate (t : Transform) (x y : ℚ) : Transform :=
  t.multiply 1 0 0 1 x y

/-- Right-compose a rotation, given through the cosine and sine of the
angle (real trigonometric functions are not computable, so the embedded
code receives them through an oracle parameter). -/
def Transform.rotate (t : Transform) (c s : ℚ) : Transform :=
  t.multiply c s (-s) c 0 0

/-- Right-compose a non-uniform scale. -/
def Transform.scale (t : Transform) (sx sy : ℚ) : Transform :=
  t.multiply sx 0 0 sy 0 0

/-- A rotation immediately followed by its inverse rotation collapses to
the identity (given a genuine cosine/sine pair). -/
theorem Transform.rotate_rotate_neg (t : Transform) (c s : ℚ)
    (h : c ^ 2 + s ^ 2 = 1) :
    (t.rotate c s).rotate c (-s) = t := by
  cases t with
  | mk m0 m1 m2 m3 m4 m5 =>
    simp only [Transform.rotate, Transform.multiply, Transform.mk.injEq]
    refine ⟨?_, ?_, ?_, ?_, ?_, ?_⟩
    · linear_combination m0 * h
    · linear_combination m1 * h
    · linear_combination m2 * h
    · linear_combination m3 * h
    · ring
    · ring

/-- `calculatePetFuisonTransform(enabledElement, activeLayer)` (source
lines 224-288; the first parameter, despite its name, is the PET-MPR
layer being drawn and acts as the reference frame).  `trig a` stands for
the pair `(Math.cos(a*π/180), Math.sin(a*π/180))`, covering the
degree-to-radian conversion at the `rotate` call sites.  Returns `none`
where the source would throw a `TypeError` on a missing viewport or
image; otherwise the transform together with the pair of layers
(reference frame, active layer) as possibly captured into by the lazy
snapshot logic of `getViewportRatio`. -/
def calculatePetFuisonTransform (trig : ℚ → ℚ × ℚ) (enabledElement activeLayer : Layer)
    (canvas : Canvas) : Option (Transform × Layer × Layer) :=
  match activeLayer.viewport, activeLayer.image, enabledElement.viewport with
  | some av, some aimg, some ev =>
    let activeWidthScale := if aimg.rowPixelSpacing < aimg.columnPixelSpacing
      then av.scale * (aimg.columnPixelSpacing / aimg.rowPixelSpacing) else av.scale
    let activeHeightScale := if aimg.columnPixelSpacing < aimg.rowPixelSpacing
      then av.scale * (aimg.rowPixelSpacing / aimg.columnPixelSpacing) else av.scale
    let t1 := Transform.identity.translate (canvas.width / 2) (canvas.height / 2)
    let angle := ev.rotation
    let t2 := if angle ≠ 0 then t1.rotate (trig angle).1 (trig angle).2 else t1
    let width := ev.displayedArea.brhc.x - (ev.displayedArea.tlhc.x - 1)
    let height := ev.displayedArea.brhc.y - (ev.displayedArea.tlhc.y - 1)
    let activeHeight := av.displayedArea.brhc.y - (av.displayedArea.tlhc.y - 1)
    let gvr := getViewportRatio activeLayer enabledElement
    let widthScale := activeWidthScale * gvr.2.2
    let heightScale := activeHeightScale * (activeHeight / height)
    let t3 := t2.scale widthScale heightScale
    let t4 := if angle ≠ 0 then t3.rotate (trig (-angle)).1 (trig (-angle)).2 else t3
    let t5 := t4.translate ev.translation.x ev.translation.y
    let t6 := if angle ≠ 0 then t5.rotate (trig angle).1 (trig angle).2 else t5
    let t7 := if ev.hflip then t6.scale (-1) 1 else t6
    let t8 := if ev.vflip then t7.scale 1 (-1) else t7
    let t9 := t8.translate (-(width / 2)) (-(height / 2))
    some (t9, gvr.2.1, gvr.1)
  | _, _, _ => none

/-- The comparison variant of the fusion transform named by claim C7:
identical computation, except that at each of the three rotation spots
(steps 2, 4 and 6 of §4.4, which the source short-circuits at zero
rotation) a rotation by `θ` immediately followed by one by `−θ` is
applied. -/
def calculatePetFuisonTransformRoundtrip (trig : ℚ → ℚ × ℚ) (θ : ℚ)
    (enabledElement activeLayer : Layer) (canvas : Canvas) :
    Option (Transform × Layer × Layer) :=
  match activeLayer.viewport, activeLayer.image, enabledElement.viewport with
  | some av, some aimg, some ev =>
    let activeWidthScale := if aimg.rowPixelSpacing < aimg.columnPixelSpacing
      then av.scale * (aimg.columnPixelSpacing / aimg.rowPixelSpacing) else av.scale
    let activeHeightScale := if aimg.columnPixelSpacing < aimg.rowPixelSpacing
      then av.scale * (aimg.rowPixelSpacing / aimg.columnPixelSpacing) else av.scale
    let t1 := Transform.identity.translate (canvas.width / 2) (canvas.height / 2)
    let t2 := (t1.rotate (trig θ).1 (trig θ).2).rotate (trig (-θ)).1 (trig (-θ)).2
    let width := ev.displayedArea.brhc.x - (ev.displayedArea.tlhc.x - 1)
    let height := ev.displayedArea.brhc.y - (ev.displayedArea.tlhc.y - 1)
    let activeHeight := av.displayedArea.brhc.y - (av.displayedArea.tlhc.y - 1)
    let gvr := getViewportRatio activeLayer enabledElement
    let widthScale := activeWidthScale * gvr.2.2
    let heightScale := activeHeightScale * (activeHeight / height)
    let t3 := t2.scale widthScale heightScale
    let t4 := (t3.rotate (trig θ).1 (trig θ).2).rotate (trig (-θ)).1 (trig (-θ)).2
    let t5 := t4.translate ev.translation.x ev.translation.y
    let t6 := (t5.rotate (trig θ).1 (trig θ).2).rotate (trig (-θ)).1 (trig (-θ)).2
    let t7 := if ev.hflip then t6.scale (-1) 1 else t6
    let t8 := if ev.vflip then t7.scale 1 (-1) else t7
    let t9 := t8.translate (-(width / 2)) (-(height / 2))
    some (t9, gvr.2.1, gvr.1)
  | _, _, _ => none

/-- Claim C7: for a reference frame with rotation 0, the fusion
transform yields the same translation and scale results (the same
matrix, and the same captured layers) as the same computation with a
rotation of `θ` followed immediately by `−θ` applied at steps 2/4/6:
given a genuine cosine/sine oracle (Pythagorean identity and evenness /
oddness at `θ`), the rotation component round-trips to the identity and
the zero-rotation short-circuit does not change the resulting matrix. -/
theorem fusionTransform_zero_rotation_roundtrip (trig : ℚ → ℚ × ℚ) (θ : ℚ)
    (enabledElement activeLayer : Layer) (canvas : Canvas) (ev : Viewport)
    (hev : enabledElement.viewport = some ev) (hrot : ev.rotation = 0)
    (hpyth : (trig θ).1 ^ 2 + (trig θ).2 ^ 2 = 1)
    (hneg : trig (-θ) = ((trig θ).1, -(trig θ).2)) :
    calculatePetFuisonTransformRoundtrip trig θ enabledElement activeLayer canvas =
      calculatePetFuisonTransform trig enabledElement activeLayer canvas := by
  rcases ha : activeLayer.viewport with _ | av
  · simp [calculatePetFuisonTransform, calculatePetFuisonTransformRoundtrip, ha]
  · rcases hai : activeLayer.image with _ | aimg
    · simp [calculatePetFuisonTransform, calculatePetFuisonTransformRoundtrip, ha, hai]
    · simp only [calculatePetFuisonTransform, calculatePetFuisonTransformRoundtrip,
        ha, hai, hev, hrot, hneg]
      rw [Transform.rotate_rotate_neg _ _ _ hpyth, Transform.rotate_rotate_neg _ _ _ hpyth,
        Transform.rotate_rotate_neg _ _ _ hpyth]
      simp

/-- Reference-frame viewport (rotation 0) for the C7 witness. -/
def c7FrameVp : Viewport :=
  { scale := 1, rotation := 0, translation := { x := 5, y := -3 },
    hflip := true, vflip := false,
    displayedArea := { tlhc := { x := 1, y := 1 }, brhc := { x := 128, y := 96 },
                       columnPixelSpacing := 1 } }

/-- Reference-frame (PET-MPR) layer for the C7 witness. -/
def c7Frame : Layer :=
  { layerId := 3, viewport := some c7FrameVp,
    syncProps := some { originalScale := 4 } }

/-- Active layer for the C7 witness. -/
def c7Active : Layer :=
  { layerId := 4,
    image := some
      { imageId := "ct-7", width := 256, height := 256,
        rowPixelSpacing := 1, columnPixelSpacing := 2 },
    viewport := some
      { scale := 2, rotation := 0, translation := { x := 0, y := 0 },
        hflip := false, vflip := false,
        displayedArea := { tlhc := { x := 1, y := 1 }, brhc := { x := 256, y := 256 },
                           columnPixelSpacing := 1 } } }

/-- Output canvas for the C7 witness. -/
def c7Canvas : Canvas := { width := 1024, height := 768 }

/-- Cosine/sine oracle for the C7 witness, honest at 30 degrees up to
the rational approximation by the (3/5, 4/5) Pythagorean pair. -/
def c7Trig : ℚ → ℚ × ℚ := fun a =>
  if a = 30 then (3/5, 4/5) else if a = -30 then (3/5, -(4/5)) else (1, 0)

/-- Witness for claim C7 at a concrete reference frame with rotation 0
and a concrete Pythagorean cosine/sine pair. -/
theorem fusionTransform_zero_rotation_roundtrip_witness :
    c7Frame.viewport = some c7FrameVp ∧ c7FrameVp.rotation = 0 ∧
    (c7Trig 30).1 ^ 2 + (c7Trig 30).2 ^ 2 = 1 ∧
    c7Trig (-30) = ((c7Trig 30).1, -(c7Trig 30).2) ∧
    calculatePetFuisonTransformRoundtrip c7Trig 30 c7Frame c7Active c7Canvas =
      calculatePetFuisonTransform c7Trig c7Frame c7Active c7Canvas :=
  ⟨rfl, rfl, by norm_num [c7Trig], by norm_num [c7Trig],
    fusionTransform_zero_rotation_roundtrip c7Trig 30 c7Frame c7Active c7Canvas c7FrameVp
      rfl rfl (by norm_num [c7Trig]) (by norm_num [c7Trig])⟩

/-! ### The composite renderer (source lines 73-214) -/

/-- The observable actions of one composite render pass: the rescale
invocations of the PET-resize branch, the synchronization passes, the
canvas clear, and the per-layer transform/rasterize calls. -/
inductive Ev where
  | rescaleCall (baseId : Option Nat) (targetId : Nat)
  | syncPass (ids : List Nat) (activeId : Nat)
  | clearCanvas
  | setTransformFusion (layerId : Nat)
  | setPixelCoords (layerId : Nat)
  | draw (layerId : Nat) (op : RenderOp) (forceRedraw : Bool) (globalAlpha : ℚ)
      (fillStyle : Option String) (imageSmoothingEnabled : Bool)
deriving DecidableEq

/-- Whether an event is a synchronization pass. -/
def Ev.isSyncPass : Ev → Bool
  | .syncPass _ _ => true
  | _ => false

/-- Whether an event is a rescale invocation. -/
def Ev.isRescaleCall : Ev → Bool
  | .rescaleCall _ _ => true
  | _ => false

/-- Whether an event touches the output canvas (clearing or drawing). -/
def Ev.touchesCanvas : Ev → Bool
  | .clearCanvas => true
  | .setTransformFusion _ => true
  | .setPixelCoords _ => true
  | .draw _ _ _ _ _ _ => true
  | _ => false

/-- The number of synchronization passes in an event trace. -/
def countSyncPass (evs : List Ev) : Nat := (evs.filter Ev.isSyncPass).length

/-- The `bResetPetScale` test (source lines 168-170): some layer has an
options object with a truthy name strictly equal to "PET" and a truthy
resize flag. -/
def isPetResize (l : Layer) : Bool :=
  match l.options with
  | some o => o.name == some petName && o.reSize
  | none => false

/-- `allLayers.some(...)` of source lines 168-170. -/
def bResetPetScale (ls : List Layer) : Bool := ls.any isPetResize

/-- Whether a layer's options name is strictly equal to "PET" (the test
of the filter on line 174 and of the loop on line 178). -/
def isPetNamed (l : Layer) : Bool :=
  match l.options with
  | some o => o.name == some petName
  | none => false

/-- The `ctFusionLayer` filter (source lines 173-175):
`allLayers.filter((layer) => layer.options.name !== 'PET')` dereferences
every layer's options object, and therefore throws on the first layer
without one. -/
def filterNonPet : List Layer → Except JsErr (List Layer)
  | [] => .ok []
  | l :: ls =>
    match l.options with
    | none => .error .typeErrUndefined
    | some o =>
      match filterNonPet ls with
      | .error e => .error e
      | .ok rest => .ok (if o.name == some petName then rest else l :: rest)

/-- The ids of the registry's visible layers, in draw order. -/
def visibleIds (ls : List Layer) : List Nat :=
  (ls.filter (fun l => l.visible)).map Layer.layerId

/-- The resync branch (source lines 160-166): refresh the snapshot of
every layer that has a viewport. -/
def resyncLayers (ls : List Layer) : List Layer :=
  ls.map (fun l => if l.viewport.isSome then updateLayerSyncProps l else l)

/-- The registry state after the resync check: snapshots are refreshed
exactly when the sync flag transitions from off to on (lines 152-166). -/
def afterResync (ee : EnabledElement) : List Layer :=
  if !ee.lastSyncViewportsState && ee.syncViewports then resyncLayers ee.layers
  else ee.layers

/-- One iteration of the PET-resize loop (source lines 177-194) on the
layer with id `lid`.  `base?` is the captured `ctFusionLayer[0]`
reference — `undefined` when every layer is named "PET"; during the loop
the base layer's fields read by `rescaleImage` are never mutated, so the
captured value is the live object.  Emits one `rescaleCall` event per
PET layer, before the call can throw. -/
def petStep (fit : Canvas → Image → ℚ → FitScaleResult) (canvas : Canvas)
    (base? : Option Layer) (s : List Layer) (lid : Nat) :
    Except JsErr (List Layer) × List Ev :=
  match findLayer s lid with
  | none => (.ok s, [])
  | some layer =>
    match layer.options with
    | none => (.error .typeErrUndefined, [])
    | some o =>
      if o.name == some petName then
        match layer.image with
        | none => (.error .typeErrUndefined, [])
        | some image =>
          match layer.viewport with
          | none => (.error .typeErrUndefined, [])
          | some v =>
            let fitRes := fit canvas image 0
            let newScale :=
              if strContains image.imageId petmprTag && !(strContains image.imageId axialTag) then
                if image.height < image.width then fitRes.horizontalScale
                else fitRes.verticalScale
              else fitRes.scaleFactor
            let layer1 := { layer with viewport := some { v with scale := newScale } }
            let s1 := setLayer s layer1
            match base? with
            | none => (.error .typeErrUndefined, [Ev.rescaleCall none lid])
            | some b =>
              (match rescaleImage b layer1 with
               | .error e => .error e
               | .ok layer2 =>
                 let layer3 := { layer2 with options := some { o with reSize := false } }
                 let s2 := setLayer s1 layer3
                 .ok (setLayer s2 (updateLayerSyncProps layer3)),
               [Ev.rescaleCall (some b.layerId) lid])
      else
        if layer.viewport.isSome then (.ok (setLayer s (updateLayerSyncProps layer)), [])
        else (.ok s, [])

/-- The PET-resize loop (source lines 177-194) over the registry's ids. -/
def petProcess (fit : Canvas → Image → ℚ → FitScaleResult) (canvas : Canvas)
    (base? : Option Layer) : List Layer → List Nat → Except JsErr (List Layer) × List Ev
  | s, [] => (.ok s, [])
  | s, lid :: rest =>
    match (petStep fit canvas base? s lid).1 with
    | .error e => (.error e, (petStep fit canvas base? s lid).2)
    | .ok s1 =>
      ((petProcess fit canvas base? s1 rest).1,
        (petStep fit canvas base? s lid).2 ++ (petProcess fit canvas base? s1 rest).2)

/-- The transform selection of `renderLayers` (source lines 85-91):
the fusion transform for non-axial PET-MPR image ids — which reads the
active layer and may lazily capture snapshots on it and on the drawn
layer — or the external standard pixel coordinate system otherwise. -/
def renderTransformStep (trig : ℚ → ℚ × ℚ) (canvas : Canvas) (aid : Nat)
    (s : List Layer) (lid : Nat) (layer : Layer) (image : Image) :
    Except JsErr (List Layer) × List Ev :=
  if strContains image.imageId petmprTag && !(strContains image.imageId axialTag) then
    match findLayer s aid with
    | none => (.error JsErr.typeErrUndefined, [])
    | some active =>
      match calculatePetFuisonTransform trig layer active canvas with
      | none => (.error JsErr.typeErrUndefined, [])
      | some (_, layer', active') =>
        (.ok (setLayer (setLayer s active') layer'), [Ev.setTransformFusion lid])
  else
    (.ok s, [Ev.setPixelCoords lid])

/-- `layer.viewport.colormap || layer.options.colormap` (source line
94): the viewport's colormap when truthy, otherwise the options'
colormap — throwing when the options object is missing. -/
def resolveColormap (v : Viewport) (options : Option LayerOptions) :
    Except JsErr (Option String) :=
  if truthyStr v.colormap then .ok v.colormap
  else
    match options with
    | none => .error .typeErrUndefined
    | some o => .ok o.colormap

/-- The rasterize-and-copy half of a `renderLayers` iteration (source
lines 93-136): re-read the drawn layer, dereference its viewport,
resolve the colormap, dispatch the rasterizer, apply opacity, fill
style and smoothing, and clear the dirty flag. -/
def renderDrawStep (invalidated : Bool) (index : Nat) (image : Image)
    (s1 : List Layer) (lid : Nat) : Except JsErr (List Layer) × List Ev :=
  match findLayer s1 lid with
  | none => (.ok s1, [])
  | some layer2 =>
    match layer2.viewport with
    | none => (.error .typeErrUndefined, [])
    | some v =>
      match resolveColormap v layer2.options with
      | .error e => (.error e, [])
      | .ok colormap =>
        let op := chooseRenderer colormap v.labelmap image.color index
        let alpha := computeGlobalAlpha layer2.options
        let fill : Option String :=
          match layer2.options with
          | some o => if truthyStr o.fillStyle then o.fillStyle else none
          | none => none
        (.ok (setLayer s1 { layer2 with invalid := false }),
          [Ev.draw lid op (layer2.invalid || invalidated) alpha fill (!v.pixelReplication)])

/-- One iteration of the `layers.forEach` in `renderLayers` (source
lines 75-137) for the layer with id `lid` at draw-order position
`index`: skip layers without an image, then run the transform selection
followed by the rasterize-and-copy half. -/
def renderStep (trig : ℚ → ℚ × ℚ) (canvas : Canvas) (aid : Nat) (invalidated : Bool)
    (s : List Layer) (lid : Nat) (index : Nat) : Except JsErr (List Layer) × List Ev :=
  match findLayer s lid with
  | none => (.ok s, [])
  | some layer =>
    match layer.image with
    | none => (.ok s, [])
    | some image =>
      match (renderTransformStep trig canvas aid s lid layer image).1 with
      | .error e => (.error e, (renderTransformStep trig canvas aid s lid layer image).2)
      | .ok s1 =>
        ((renderDrawStep invalidated index image s1 lid).1,
          (renderTransformStep trig canvas aid s lid layer image).2 ++
            (renderDrawStep invalidated index image s1 lid).2)

/-- `renderLayers(context, layers, activeLayer, invalidated)` (source
lines 73-138) over the visible layers' ids, threading the draw-order
index. -/
def renderLayers (trig : ℚ → ℚ × ℚ) (canvas : Canvas) (aid : Nat) (invalidated : Bool) :
    List Layer → List Nat → Nat → Except JsErr (List Layer) × List Ev
  | s, [], _ => (.ok s, [])
  | s, lid :: rest, index =>
    match (renderStep trig canvas aid invalidated s lid index).1 with
    | .error e => (.error e, (renderStep trig canvas aid invalidated s lid index).2)
    | .ok s1 =>
      ((renderLayers trig canvas aid invalidated s1 rest (index + 1)).1,
        (renderStep trig canvas aid invalidated s lid index).2 ++
          (renderLayers trig canvas aid invalidated s1 rest (index + 1)).2)

/-- `drawCompositeImage(enabledElement, invalidated)` (source lines
147-214): resync check, PET-resize branch with its forced sync pass,
conditional sync pass, canvas clear, and per-layer drawing.  On success
the returned element carries the updated registry and the stored
previous sync flag; a thrown exception is returned as `Except.error`
together with the events that happened before the throw (the source
also updates `lastSyncViewportsState` and some layers in place before
throwing; no claim depends on the post-throw state). -/
def drawCompositeImage (trig : ℚ → ℚ × ℚ) (fit : Canvas → Image → ℚ → FitScaleResult)
    (ee : EnabledElement) (invalidated : Bool) :
    Except JsErr EnabledElement × List Ev :=
  let allIds := ee.layers.map Layer.layerId
  let vids := visibleIds ee.layers
  let s0 := afterResync ee
  let petResult : Except JsErr (List Layer) × List Ev :=
    if bResetPetScale s0 then
      match filterNonPet s0 with
      | .error e => (.error e, [])
      | .ok ctFusionLayer =>
        match petProcess fit ee.canvas ctFusionLayer.head? s0 allIds with
        | (.error e, ev) => (.error e, ev)
        | (.ok s1, ev) =>
          (.ok (syncViewports s1 vids ee.activeLayerId),
            ev ++ [Ev.syncPass vids ee.activeLayerId])
    else
      (.ok s0, [])
  match petResult with
  | (.error e, ev) => (.error e, ev)
  | (.ok s2, ev1) =>
    let syncResult : List Layer × List Ev :=
      if ee.syncViewports then
        (syncViewports s2 vids ee.activeLayerId, [Ev.syncPass vids ee.activeLayerId])
      else (s2, [])
    match renderLayers trig ee.canvas ee.activeLayerId invalidated syncResult.1 vids 0 with
    | (.error e, ev3) => (.error e, ev1 ++ syncResult.2 ++ [Ev.clearCanvas] ++ ev3)
    | (.ok s4, ev3) =>
      (.ok { ee with layers := s4, lastSyncViewportsState := ee.syncViewports },
        ev1 ++ syncResult.2 ++ [Ev.clearCanvas] ++ ev3)

/-! ### Event-trace lemmas -/

theorem countSyncPass_append (a b : List Ev) :
    countSyncPass (a ++ b) = countSyncPass a + countSyncPass b := by
  simp [countSyncPass, List.filter_append]

theorem isRescale_not_syncPass {e : Ev} (h : e.isRescaleCall = true) :
    e.isSyncPass = false := by
  cases e <;> simp_all [Ev.isRescaleCall, Ev.isSyncPass]

theorem isRescale_not_touchesCanvas {e : Ev} (h : e.isRescaleCall = true) :
    e.touchesCanvas = false := by
  cases e <;> simp_all [Ev.isRescaleCall, Ev.touchesCanvas]

theorem countSyncPass_eq_zero {evs : List Ev} (h : ∀ e ∈ evs, e.isSyncPass = false) :
    countSyncPass evs = 0 := by
  induction evs with
  | nil => rfl
  | cons x xs ih =>
    have hx := h x (List.mem_cons_self x xs)
    have ihx := ih (fun e he => h e (List.mem_cons_of_mem _ he))
    simp only [countSyncPass, List.filter_cons, hx] at ihx ⊢
    simp [ihx]

theorem petStep_events (fit : Canvas → Image → ℚ → FitScaleResult) (canvas : Canvas)
    (base? : Option Layer) (s : List Layer) (lid : Nat) :
    ∀ e ∈ (petStep fit canvas base? s lid).2, e.isRescaleCall = true := by
  intro e he
  unfold petStep at he
  repeat' split at he
  all_goals simp_all [Ev.isRescaleCall]

theorem petProcess_events (fit : Canvas → Image → ℚ → FitScaleResult) (canvas : Canvas)
    (base? : Option Layer) (s : List Layer) (ids : List Nat) :
    ∀ e ∈ (petProcess fit canvas base? s ids).2, e.isRescaleCall = true := by
  induction ids generalizing s with
  | nil =>
    intro e he
    simp [petProcess] at he
  | cons lid rest ih =>
    intro e he
    rw [petProcess] at he
    rcases hst : (petStep fit canvas base? s lid).1 with e1 | s1
    · rw [hst] at he
      simp only [List.mem_append] at he
      exact petStep_events fit canvas base? s lid e he
    · rw [hst] at he
      simp only [List.mem_append] at he
      rcases he with he | he
      · exact petStep_events fit canvas base? s lid e he
      · exact ih s1 e he

theorem renderTransformStep_events (trig : ℚ → ℚ × ℚ) (canvas : Canvas) (aid : Nat)
    (s : List Layer) (lid : Nat) (layer : Layer) (image : Image) :
    ∀ e ∈ (renderTransformStep trig canvas aid s lid layer image).2,
      e.isSyncPass = false ∧ e.isRescaleCall = false := by
  intro e he
  unfold renderTransformStep at he
  repeat' split at he
  all_goals simp_all [Ev.isSyncPass, Ev.isRescaleCall]

theorem renderDrawStep_events (invalidated : Bool) (index : Nat) (image : Image)
    (s1 : List Layer) (lid : Nat) :
    ∀ e ∈ (renderDrawStep invalidated index image s1 lid).2,
      e.isSyncPass = false ∧ e.isRescaleCall = false := by
  intro e he
  unfold renderDrawStep at he
  repeat' split at he
  all_goals simp_all [Ev.isSyncPass, Ev.isRescaleCall]

theorem renderStep_events (trig : ℚ → ℚ × ℚ) (canvas : Canvas) (aid : Nat)
    (invalidated : Bool) (s : List Layer) (lid : Nat) (index : Nat) :
    ∀ e ∈ (renderStep trig canvas aid invalidated s lid index).2,
      e.isSyncPass = false ∧ e.isRescaleCall = false := by
  intro e he
  unfold renderStep at he
  rcases h1 : findLayer s lid with _ | layer
  · simp [h1] at he
  · simp only [h1] at he
    rcases h2 : layer.image with _ | image
    · simp [h1, h2] at he
    · simp only [h2] at he
      rcases h3 : (renderTransformStep trig canvas aid s lid layer image).1 with e1 | s1
      · simp only [h3] at he
        exact renderTransformStep_events trig canvas aid s lid layer image e he
      · simp only [h3, List.mem_append] at he
        rcases he with he | he
        · exact renderTransformStep_events trig canvas aid s lid layer image e he
        · exact renderDrawStep_events invalidated index image s1 lid e he

theorem renderLayers_events (trig : ℚ → ℚ × ℚ) (canvas : Canvas) (aid : Nat)
    (invalidated : Bool) (s : List Layer) (ids : List Nat) (index : Nat) :
    ∀ e ∈ (renderLayers trig canvas aid invalidated s ids index).2,
      e.isSyncPass = false ∧ e.isRescaleCall = false := by
  induction ids generalizing s index with
  | nil =>
    intro e he
    simp [renderLayers] at he
  | cons lid rest ih =>
    intro e he
    rw [renderLayers] at he
    rcases hst : (renderStep trig canvas aid invalidated s lid index).1 with e1 | s1
    · rw [hst] at he
      exact renderStep_events trig canvas aid invalidated s lid index e he
    · rw [hst] at he
      simp only [List.mem_append] at he
      rcases he with he | he
      · exact renderStep_events trig canvas aid invalidated s lid index e he
      · exact ih s1 (index + 1) e he

/-! ### Claim C5: the forced synchronization pass of the PET-resize branch -/

/-- Claim C5: in a composite render call where some layer is named "PET"
with a pending resize request (and the PET-resize branch completes), a
synchronization pass over the currently-visible layers runs right after
the resize processing — whose events carry no sync pass — regardless of
the global sync flag; and when the global sync flag is on, exactly one
further synchronization pass runs in the same call (the two passes are
not deduplicated), so the call holds two sync passes with the flag on
and one with it off. -/
theorem drawCompositeImage_pet_forced_sync (trig : ℚ → ℚ × ℚ)
    (fit : Canvas → Image → ℚ → FitScaleResult) (ee : EnabledElement) (invalidated : Bool)
    (ct : List Layer) (s1 : List Layer) (petEv : List Ev)
    (hb : bResetPetScale (afterResync ee) = true)
    (hct : filterNonPet (afterResync ee) = .ok ct)
    (hpet : petProcess fit ee.canvas ct.head? (afterResync ee) (ee.layers.map Layer.layerId)
      = (.ok s1, petEv)) :
    ∃ tail,
      (drawCompositeImage trig fit ee invalidated).2 =
        petEv ++ Ev.syncPass (visibleIds ee.layers) ee.activeLayerId :: tail ∧
      (∀ e ∈ petEv, e.isSyncPass = false) ∧
      countSyncPass tail = (if ee.syncViewports then 1 else 0) ∧
      (∀ e ∈ tail, e.isRescaleCall = false) ∧
      countSyncPass ((drawCompositeImage trig fit ee invalidated).2) =
        (if ee.syncViewports then 2 else 1) := by
  have hpetRe : ∀ e ∈ petEv, e.isRescaleCall = true := by
    intro e he
    have h := petProcess_events fit ee.canvas ct.head? (afterResync ee)
      (ee.layers.map Layer.layerId) e
    rw [hpet] at h
    exact h he
  have hpetEv : ∀ e ∈ petEv, e.isSyncPass = false :=
    fun e he => isRescale_not_syncPass (hpetRe e he)
  have hpet0 : countSyncPass petEv = 0 := countSyncPass_eq_zero hpetEv
  cases hsv : ee.syncViewports with
  | false =>
    rcases hrl : renderLayers trig ee.canvas ee.activeLayerId invalidated
        (syncViewports s1 (visibleIds ee.layers) ee.activeLayerId) (visibleIds ee.layers) 0
      with ⟨r3, ev3⟩
    have hev3 : ∀ e ∈ ev3, e.isSyncPass = false ∧ e.isRescaleCall = false := by
      intro e he
      have h := renderLayers_events trig ee.canvas ee.activeLayerId invalidated
        (syncViewports s1 (visibleIds ee.layers) ee.activeLayerId) (visibleIds ee.layers) 0 e
      rw [hrl] at h
      exact h he
    have h30 : countSyncPass ev3 = 0 :=
      countSyncPass_eq_zero (fun e he => (hev3 e he).1)
    have hlog : (drawCompositeImage trig fit ee invalidated).2 =
        petEv ++ Ev.syncPass (visibleIds ee.layers) ee.activeLayerId ::
          ([Ev.clearCanvas] ++ ev3) := by
      unfold drawCompositeImage
      simp only [hb, hct, hpet, hsv, if_true, Bool.false_eq_true, if_false]
      rcases r3 with e3 | s4 <;> simp [hrl]
    refine ⟨[Ev.clearCanvas] ++ ev3, hlog, hpetEv, ?_, ?_, ?_⟩
    · rw [countSyncPass_append, h30]
      simp [countSyncPass, List.filter, Ev.isSyncPass]
    · intro e he
      rcases List.mem_append.mp he with he | he
      · simp at he
        subst he
        rfl
      · exact (hev3 e he).2
    · rw [hlog]
      have : petEv ++ Ev.syncPass (visibleIds ee.layers) ee.activeLayerId ::
          ([Ev.clearCanvas] ++ ev3) =
          petEv ++ ([Ev.syncPass (visibleIds ee.layers) ee.activeLayerId] ++
            ([Ev.clearCanvas] ++ ev3)) := by simp
      rw [this, countSyncPass_append, countSyncPass_append, countSyncPass_append,
        hpet0, h30]
      simp [countSyncPass, List.filter, Ev.isSyncPass]
  | true =>
    rcases hrl : renderLayers trig ee.canvas ee.activeLayerId invalidated
        (syncViewports (syncViewports s1 (visibleIds ee.layers) ee.activeLayerId)
          (visibleIds ee.layers) ee.activeLayerId) (visibleIds ee.layers) 0
      with ⟨r3, ev3⟩
    have hev3 : ∀ e ∈ ev3, e.isSyncPass = false ∧ e.isRescaleCall = false := by
      intro e he
      have h := renderLayers_events trig ee.canvas ee.activeLayerId invalidated
        (syncViewports (syncViewports s1 (visibleIds ee.layers) ee.activeLayerId)
          (visibleIds ee.layers) ee.activeLayerId) (visibleIds ee.layers) 0 e
      rw [hrl] at h
      exact h he
    have h30 : countSyncPass ev3 = 0 :=
      countSyncPass_eq_zero (fun e he => (hev3 e he).1)
    have hlog : (drawCompositeImage trig fit ee invalidated).2 =
        petEv ++ Ev.syncPass (visibleIds ee.layers) ee.activeLayerId ::
          ([Ev.syncPass (visibleIds ee.layers) ee.activeLayerId] ++ [Ev.clearCanvas] ++ ev3) := by
      unfold drawCompositeImage
      simp only [hb, hct, hpet, hsv, if_true]
      rcases r3 with e3 | s4 <;> simp [hrl]
    refine ⟨[Ev.syncPass (visibleIds ee.layers) ee.activeLayerId] ++ [Ev.clearCanvas] ++ ev3,
      hlog, hpetEv, ?_, ?_, ?_⟩
    · rw [countSyncPass_append, countSyncPass_append, h30]
      simp [countSyncPass, List.filter, Ev.isSyncPass]
    · intro e he
      rcases List.mem_append.mp he with he | he
      · rcases List.mem_append.mp he with he | he
        · simp at he
          subst he
          rfl
        · simp at he
          subst he
          rfl
      · exact (hev3 e he).2
    · rw [hlog]
      have : petEv ++ Ev.syncPass (visibleIds ee.layers) ee.activeLayerId ::
          ([Ev.syncPass (visibleIds ee.layers) ee.activeLayerId] ++ [Ev.clearCanvas] ++ ev3) =
          petEv ++ ([Ev.syncPass (visibleIds ee.layers) ee.activeLayerId] ++
            ([Ev.syncPass (visibleIds ee.layers) ee.activeLayerId] ++ ([Ev.clearCanvas] ++ ev3))) := by
        simp
      rw [this, countSyncPass_append, countSyncPass_append, countSyncPass_append,
        countSyncPass_append, hpet0, h30]
      simp [countSyncPass, List.filter, Ev.isSyncPass]

/-- Name string for the non-PET witness layers. -/
def ctName : String := "CT"

/-- Base (CT) viewport for the C5 witness. -/
def c5CTVp : Viewport :=
  { scale := 3, rotation := 0, translation := { x := 0, y := 0 },
    hflip := false, vflip := false,
    displayedArea := { tlhc := { x := 1, y := 1 }, brhc := { x := 10, y := 10 },
                       columnPixelSpacing := 1 } }

/-- PET viewport for the C5 witness. -/
def c5PETVp : Viewport :=
  { scale := 1, rotation := 0, translation := { x := 0, y := 0 },
    hflip := false, vflip := false,
    displayedArea := { tlhc := { x := 1, y := 1 }, brhc := { x := 10, y := 10 },
                       columnPixelSpacing := 1 } }

/-- Base (CT) layer for the C5 witness; its image has no source
identifier, so the rescale against it is the identifier-guard no-op. -/
def c5CT : Layer :=
  { layerId := 1,
    image := some
      { imageId := "", width := 10, height := 10,
        rowPixelSpacing := 1, columnPixelSpacing := 1 },
    viewport := some c5CTVp,
    options := some { name := some ctName },
    visible := false }

/-- PET layer with a pending resize request for the C5 witness. -/
def c5PET : Layer :=
  { layerId := 2,
    image := some
      { imageId := "pet-5", width := 10, height := 10,
        rowPixelSpacing := 1, columnPixelSpacing := 1 },
    viewport := some c5PETVp,
    options := some { name := some petName, reSize := true },
    visible := false }

/-- Enabled element for the C5 witness (sync flag on, no transition). -/
def c5EE : EnabledElement :=
  { layers := [c5CT, c5PET], activeLayerId := 1, syncViewports := true,
    lastSyncViewportsState := true, canvas := { width := 100, height := 100 } }

/-- Fit-scale collaborator for the C5 witness. -/
def c5Fit : Canvas → Image → ℚ → FitScaleResult := fun _ _ _ =>
  { horizontalScale := 2, verticalScale := 2, scaleFactor := 2 }

/-- Trigonometric oracle for the C5 witness (never consulted). -/
def c5Trig : ℚ → ℚ × ℚ := fun _ => (1, 0)

/-- The CT layer after the C5 witness run of the PET-resize loop. -/
def c5CTAfter : Layer :=
  { c5CT with syncProps := some { originalScale := 3 } }

/-- The PET layer after the C5 witness run of the PET-resize loop. -/
def c5PETAfter : Layer :=
  { c5PET with
    viewport := some { c5PETVp with scale := 2 },
    options := some { name := some petName, reSize := false },
    syncProps := some { originalScale := 2 } }

/-- Witness for claim C5 on a concrete registry with a resize-pending
PET layer and the sync flag on. -/
theorem drawCompositeImage_pet_forced_sync_witness :
    bResetPetScale (afterResync c5EE) = true ∧
    filterNonPet (afterResync c5EE) = .ok [c5CT] ∧
    petProcess c5Fit c5EE.canvas [c5CT].head? (afterResync c5EE)
      (c5EE.layers.map Layer.layerId) =
      (.ok [c5CTAfter, c5PETAfter], [Ev.rescaleCall (some 1) 2]) ∧
    (∃ tail,
      (drawCompositeImage c5Trig c5Fit c5EE false).2 =
        [Ev.rescaleCall (some 1) 2] ++
          Ev.syncPass (visibleIds c5EE.layers) c5EE.activeLayerId :: tail ∧
      (∀ e ∈ [Ev.rescaleCall (some 1) 2], e.isSyncPass = false) ∧
      countSyncPass tail = (if c5EE.syncViewports then 1 else 0) ∧
      (∀ e ∈ tail, e.isRescaleCall = false) ∧
      countSyncPass ((drawCompositeImage c5Trig c5Fit c5EE false).2) =
        (if c5EE.syncViewports then 2 else 1)) :=
  ⟨by decide, by decide, by decide,
    drawCompositeImage_pet_forced_sync c5Trig c5Fit c5EE false [c5CT]
      [c5CTAfter, c5PETAfter] [Ev.rescaleCall (some 1) 2]
      (by decide) (by decide) (by decide)⟩

/-! ### Claim C6: stability of sync snapshots -/

/-- Snapshot preservation between two registry states: every layer that
already carries a snapshot still carries the same snapshot. -/
def keepsSnapshots (s s' : List Layer) : Prop :=
  ∀ lid L sp, findLayer s lid = some L → L.syncProps = some sp →
    ∃ L', findLayer s' lid = some L' ∧ L'.syncProps = some sp

theorem keepsSnapshots_refl (s : List Layer) : keepsSnapshots s s :=
  fun _ L _sp h1 h2 => ⟨L, h1, h2⟩

theorem keepsSnapshots_trans {a b c : List Layer}
    (h1 : keepsSnapshots a b) (h2 : keepsSnapshots b c) : keepsSnapshots a c := by
  intro lid L sp hL hsp
  obtain ⟨L1, hL1, hsp1⟩ := h1 lid L sp hL hsp
  exact h2 lid L1 sp hL1 hsp1

theorem captureIfMissing_syncProps_of_some {l : Layer} {sp : SyncProps}
    (h : l.syncProps = some sp) : (captureIfMissing l).syncProps = some sp := by
  rw [captureIfMissing_of_isSome (by simp [h])]
  exact h

theorem keepsSnapshots_setLayer {s : List Layer} {X Y : Layer}
    (hfind : findLayer s X.layerId = some Y)
    (hsp : ∀ sp, Y.syncProps = some sp → X.syncProps = some sp) :
    keepsSnapshots s (setLayer s X) := by
  intro lid L sp hL hspL
  by_cases hid : lid = X.layerId
  · subst hid
    have hYL : Y = L := by
      rw [hL] at hfind
      exact (Option.some_inj.mp hfind).symm
    refine ⟨X, findLayer_setLayer_self (by simp [hL]), hsp sp ?_⟩
    rw [hYL]
    exact hspL
  · exact ⟨L, by rw [findLayer_setLayer_ne hid]; exact hL, hspL⟩

theorem keepsSnapshots_syncStep (aid : Nat) (s : List Layer) (k : Nat) :
    keepsSnapshots s (syncStep aid s k) := by
  rcases hk : findLayer s k with _ | layer
  · rcases ha : findLayer s aid with _ | active <;>
      · simp only [syncStep, hk]
        exact keepsSnapshots_refl s
  · rcases ha : findLayer s aid with _ | active
    · simp only [syncStep, hk, ha]
      exact keepsSnapshots_refl s
    · by_cases hka : k = aid
      · subst hka
        rw [syncStep_self]
        exact keepsSnapshots_refl s
      · rcases hlv : layer.viewport with _ | lv
        · simp only [syncStep, hk, ha, if_neg hka, hlv]
          exact keepsSnapshots_refl s
        · rcases hav : active.viewport with _ | av
          · simp only [syncStep, hk, ha, if_neg hka, hlv, hav]
            exact keepsSnapshots_refl s
          · rw [syncStep_processed_eq hka hk ha hlv hav]
            have hstep1 : keepsSnapshots s (setLayer s (captureIfMissing active)) := by
              apply keepsSnapshots_setLayer (Y := active)
              · rw [captureIfMissing_layerId, findLayer_eq_id ha]
                exact ha
              · intro sp hsp
                exact captureIfMissing_syncProps_of_some hsp
            have hstep2 : keepsSnapshots (setLayer s (captureIfMissing active))
                (setLayer (setLayer s (captureIfMissing active)) (syncedLayer layer active lv av)) := by
              apply keepsSnapshots_setLayer (Y := layer)
              · rw [syncedLayer_layerId]
                rw [findLayer_setLayer_ne]
                · rw [findLayer_eq_id hk]
                  exact hk
                · rw [captureIfMissing_layerId, findLayer_eq_id hk, findLayer_eq_id ha]
                  exact hka
              · intro sp hsp
                rw [syncedLayer_syncProps]
                exact captureIfMissing_syncProps_of_some hsp
            exact keepsSnapshots_trans hstep1 hstep2

theorem keepsSnapshots_syncViewports (s : List Layer) (ids : List Nat) (aid : Nat) :
    keepsSnapshots s (syncViewports s ids aid) := by
  induction ids generalizing s with
  | nil => exact keepsSnapshots_refl s
  | cons k ks ih =>
    rw [syncViewports]
    exact keepsSnapshots_trans (keepsSnapshots_syncStep aid s k) (ih _)

theorem calculatePetFuisonTransform_layers {trig : ℚ → ℚ × ℚ} {e a : Layer}
    {canvas : Canvas} {t : Transform} {l' a' : Layer}
    (h : calculatePetFuisonTransform trig e a canvas = some (t, l', a')) :
    l' = captureIfMissing e ∧ a' = captureIfMissing a := by
  unfold calculatePetFuisonTransform at h
  rcases hav : a.viewport with _ | av <;> rw [hav] at h
  · simp at h
  · rcases hai : a.image with _ | aimg <;> rw [hai] at h
    · simp at h
    · rcases hev : e.viewport with _ | ev <;> rw [hev] at h
      · simp at h
      · simp only [getViewportRatio, Option.some_inj, Prod.mk.injEq] at h
        exact ⟨h.2.1.symm, h.2.2.symm⟩

theorem renderTransformStep_keeps {trig : ℚ → ℚ × ℚ} {canvas : Canvas} {aid : Nat}
    {s : List Layer} {lid : Nat} {layer : Layer} {image : Image} {s1 : List Layer}
    (hl : findLayer s lid = some layer)
    (h : (renderTransformStep trig canvas aid s lid layer image).1 = .ok s1) :
    keepsSnapshots s s1 := by
  unfold renderTransformStep at h
  by_cases hc : (strContains image.imageId petmprTag && !(strContains image.imageId axialTag)) = true
  · rw [if_pos hc] at h
    rcases ha : findLayer s aid with _ | active
    · simp [ha] at h
    · simp only [ha] at h
      rcases hct : calculatePetFuisonTransform trig layer active canvas with _ | tla
      · simp [hct] at h
      · obtain ⟨t, layer', active'⟩ := tla
        simp only [hct, Except.ok.injEq] at h
        obtain ⟨hl', ha'⟩ := calculatePetFuisonTransform_layers hct
        subst hl'
        subst ha'
        subst h
        have hstep1 : keepsSnapshots s (setLayer s (captureIfMissing active)) := by
          apply keepsSnapshots_setLayer (Y := active)
          · rw [captureIfMissing_layerId, findLayer_eq_id ha]
            exact ha
          · intro sp hsp
            exact captureIfMissing_syncProps_of_some hsp
        have hY : ∃ Y, findLayer (setLayer s (captureIfMissing active))
            ((captureIfMissing layer).layerId) = some Y ∧
            (Y = layer ∨ Y = captureIfMissing layer) := by
          by_cases hla : (captureIfMissing layer).layerId = (captureIfMissing active).layerId
          · have hsame : layer = active := by
              rw [captureIfMissing_layerId, captureIfMissing_layerId,
                findLayer_eq_id hl, findLayer_eq_id ha] at hla
              rw [hla] at hl
              rw [ha] at hl
              exact (Option.some_inj.mp hl).symm
            refine ⟨captureIfMissing layer, ?_, Or.inr rfl⟩
            rw [hla, hsame]
            exact findLayer_setLayer_self
              (by rw [captureIfMissing_layerId, findLayer_eq_id ha]; simp [ha])
          · refine ⟨layer, ?_, Or.inl rfl⟩
            rw [findLayer_setLayer_ne hla, captureIfMissing_layerId, findLayer_eq_id hl]
            exact hl
        obtain ⟨Y, hYfind, hYcase⟩ := hY
        have hstep2 : keepsSnapshots (setLayer s (captureIfMissing active))
            (setLayer (setLayer s (captureIfMissing active)) (captureIfMissing layer)) := by
          apply keepsSnapshots_setLayer (Y := Y) hYfind
          intro sp hsp
          rcases hYcase with hY1 | hY1
          · subst hY1
            exact captureIfMissing_syncProps_of_some hsp
          · subst hY1
            exact hsp
        exact keepsSnapshots_trans hstep1 hstep2
  · rw [if_neg hc] at h
    simp only [Except.ok.injEq] at h
    subst h
    exact keepsSnapshots_refl s

theorem renderDrawStep_keeps {invalidated : Bool} {index : Nat} {image : Image}
    {s1 : List Layer} {lid : Nat} {s2 : List Layer}
    (h : (renderDrawStep invalidated index image s1 lid).1 = .ok s2) :
    keepsSnapshots s1 s2 := by
  unfold renderDrawStep at h
  rcases hf : findLayer s1 lid with _ | layer2 <;> simp only [hf] at h
  · simp only [Except.ok.injEq] at h
    subst h
    exact keepsSnapshots_refl _
  · rcases hv : layer2.viewport with _ | v <;> simp only [hv] at h
    · simp at h
    · rcases hcm : resolveColormap v layer2.options with e | cm <;> simp only [hcm] at h
      · simp at h
      · simp only [Except.ok.injEq] at h
        subst h
        apply keepsSnapshots_setLayer (Y := layer2)
        · have hid : ({ layer2 with invalid := false } : Layer).layerId = lid := by
            simp [findLayer_eq_id hf]
          rw [hid]
          exact hf
        · intro sp hsp
          simpa using hsp

theorem renderStep_keeps {trig : ℚ → ℚ × ℚ} {canvas : Canvas} {aid : Nat}
    {invalidated : Bool} {s : List Layer} {lid : Nat} {index : Nat} {s3 : List Layer}
    (h : (renderStep trig canvas aid invalidated s lid index).1 = .ok s3) :
    keepsSnapshots s s3 := by
  unfold renderStep at h
  rcases h1 : findLayer s lid with _ | layer <;> simp only [h1] at h
  · simp only [Except.ok.injEq] at h
    subst h
    exact keepsSnapshots_refl _
  · rcases h2 : layer.image with _ | image <;> simp only [h2] at h
    · simp only [Except.ok.injEq] at h
      subst h
      exact keepsSnapshots_refl _
    · rcases h3 : (renderTransformStep trig canvas aid s lid layer image).1 with e1 | s1 <;>
        simp only [h3] at h
      · simp at h
      · exact keepsSnapshots_trans (renderTransformStep_keeps h1 h3) (renderDrawStep_keeps h)

theorem renderLayers_keeps {trig : ℚ → ℚ × ℚ} {canvas : Canvas} {aid : Nat}
    {invalidated : Bool} {s : List Layer} {ids : List Nat} {index : Nat} {s3 : List Layer}
    (h : (renderLayers trig canvas aid invalidated s ids index).1 = .ok s3) :
    keepsSnapshots s s3 := by
  induction ids generalizing s index with
  | nil =>
    rw [renderLayers] at h
    simp only [Except.ok.injEq] at h
    subst h
    exact keepsSnapshots_refl _
  | cons lid rest ih =>
    rw [renderLayers] at h
    rcases hst : (renderStep trig canvas aid invalidated s lid index).1 with e1 | s1 <;>
      simp only [hst] at h
    · simp at h
    · exact keepsSnapshots_trans (renderStep_keeps hst) (ih h)

/-- Claim C6 (amended): during a composite render call in which the sync
flag did not transition from off to on AND no layer is a "PET" layer
with a pending resize request, every layer that already has a sync
snapshot keeps its snapshot unchanged.  (The per-layer exception of the
original claim is not enough: when any PET layer has a pending resize,
the source's lines 191-193 refresh the snapshot of every layer with a
viewport, not only the resized PET layer — see the counterexample.) -/
theorem drawCompositeImage_snapshots_stable (trig : ℚ → ℚ × ℚ)
    (fit : Canvas → Image → ℚ → FitScaleResult) (ee : EnabledElement)
    (invalidated : Bool) (ee' : EnabledElement) (evs : List Ev)
    (hres : (!ee.lastSyncViewportsState && ee.syncViewports) = false)
    (hpet : bResetPetScale ee.layers = false)
    (hrun : drawCompositeImage trig fit ee invalidated = (.ok ee', evs))
    (lid : Nat) (L : Layer) (sp : SyncProps)
    (hL : findLayer ee.layers lid = some L) (hsp : L.syncProps = some sp) :
    ∃ L', findLayer ee'.layers lid = some L' ∧ L'.syncProps = some sp := by
  have hs0 : afterResync ee = ee.layers := by
    simp [afterResync, hres]
  unfold drawCompositeImage at hrun
  rw [hs0] at hrun
  simp only [hpet, Bool.false_eq_true, if_false] at hrun
  cases hsv : ee.syncViewports with
  | false =>
    simp only [hsv, Bool.false_eq_true, if_false] at hrun
    rcases hrl : renderLayers trig ee.canvas ee.activeLayerId invalidated
        ee.layers (visibleIds ee.layers) 0 with ⟨r3, ev3⟩
    rw [hrl] at hrun
    rcases r3 with e3 | s4
    · simp at hrun
    · simp only [Prod.mk.injEq, Except.ok.injEq] at hrun
      have hlayers : ee'.layers = s4 := by
        rw [← hrun.1]
      have hkeep : keepsSnapshots ee.layers s4 :=
        renderLayers_keeps (by rw [hrl])
      rw [hlayers]
      exact hkeep lid L sp hL hsp
  | true =>
    simp only [hsv, if_true] at hrun
    rcases hrl : renderLayers trig ee.canvas ee.activeLayerId invalidated
        (syncViewports ee.layers (visibleIds ee.layers) ee.activeLayerId)
        (visibleIds ee.layers) 0 with ⟨r3, ev3⟩
    rw [hrl] at hrun
    rcases r3 with e3 | s4
    · simp at hrun
    · simp only [Prod.mk.injEq, Except.ok.injEq] at hrun
      have hlayers : ee'.layers = s4 := by
        rw [← hrun.1]
      have hkeep : keepsSnapshots ee.layers s4 :=
        keepsSnapshots_trans
          (keepsSnapshots_syncViewports ee.layers (visibleIds ee.layers) ee.activeLayerId)
          (renderLayers_keeps (by rw [hrl]))
      rw [hlayers]
      exact hkeep lid L sp hL hsp

/-- Single snapshotted layer for the C6 witness. -/
def c6wLayer : Layer :=
  { layerId := 9, viewport := some c5CTVp,
    syncProps := some { originalScale := 7 },
    options := some { name := some ctName }, visible := false }

/-- Enabled element for the C6 witness: sync flag off, no transition,
no PET layer with a pending resize. -/
def c6wEE : EnabledElement :=
  { layers := [c6wLayer], activeLayerId := 9, syncViewports := false,
    lastSyncViewportsState := false, canvas := { width := 50, height := 50 } }

/-- Witness for the amended claim C6 on a concrete registry. -/
theorem drawCompositeImage_snapshots_stable_witness :
    (!c6wEE.lastSyncViewportsState && c6wEE.syncViewports) = false ∧
    bResetPetScale c6wEE.layers = false ∧
    drawCompositeImage c5Trig c5Fit c6wEE false = (.ok c6wEE, [Ev.clearCanvas]) ∧
    findLayer c6wEE.layers 9 = some c6wLayer ∧
    c6wLayer.syncProps = some { originalScale := 7 } ∧
    (∃ L', findLayer c6wEE.layers 9 = some L' ∧ L'.syncProps = some { originalScale := 7 }) :=
  ⟨by decide, by decide, by decide, rfl, rfl,
    drawCompositeImage_snapshots_stable c5Trig c5Fit c6wEE false c6wEE [Ev.clearCanvas]
      (by decide) (by decide) (by decide) 9 c6wLayer { originalScale := 7 } rfl rfl⟩

/-- Projection used by the C6 counterexample: the snapshot of the layer
with id `lid` after a successful composite render. -/
def snapshotAfterDraw (r : Except JsErr EnabledElement × List Ev) (lid : Nat) :
    Option SyncProps :=
  match r.1 with
  | .ok ee2 => (findLayer ee2.layers lid).bind Layer.syncProps
  | .error _ => none

/-- Non-PET layer with a stale snapshot for the C6 counterexample: its
snapshot records baseline scale 5 while its current scale is 3. -/
def c6CT : Layer :=
  { layerId := 1,
    image := some
      { imageId := "", width := 10, height := 10,
        rowPixelSpacing := 1, columnPixelSpacing := 1 },
    viewport := some c5CTVp,
    options := some { name := some ctName },
    syncProps := some { originalScale := 5 },
    visible := false }

/-- Enabled element for the C6 counterexample: sync flag off (no
transition), one non-PET layer with a snapshot, one PET layer with a
pending resize request. -/
def c6EE : EnabledElement :=
  { layers := [c6CT, c5PET], activeLayerId := 1, syncViewports := false,
    lastSyncViewportsState := false, canvas := { width := 100, height := 100 } }

/-- Counterexample to claim C6 as stated: in this render call the sync
flag does not transition from off to on and layer 1 is not a PET layer
with a pending resize request, yet its snapshot is silently recomputed
(from baseline scale 5 to the current scale 3) because a different
layer — the PET layer — has a pending resize request. -/
theorem drawCompositeImage_snapshot_refresh_cex :
    (!c6EE.lastSyncViewportsState && c6EE.syncViewports) = false ∧
    findLayer c6EE.layers 1 = some c6CT ∧
    isPetResize c6CT = false ∧
    c6CT.syncProps = some { originalScale := 5 } ∧
    snapshotAfterDraw (drawCompositeImage c5Trig c5Fit c6EE false) 1 =
      some { originalScale := 3 } ∧
    some ({ originalScale := 3 } : SyncProps) ≠ some { originalScale := 5 } := by
  decide

/-! ### Claim C10: safety of the PET-resize branch -/

theorem filterNonPet_ok_options {ls ct : List Layer} (h : filterNonPet ls = .ok ct) :
    ∀ l ∈ ls, l.options.isSome = true := by
  induction ls generalizing ct with
  | nil =>
    intro l hl
    cases hl
  | cons x rest ih =>
    rw [filterNonPet] at h
    rcases ho : x.options with _ | o
    · rw [ho] at h
      simp at h
    · rw [ho] at h
      rcases hrec : filterNonPet rest with e | ctr
      · rw [hrec] at h
        simp at h
      · intro l hl
        rcases List.mem_cons.mp hl with hl | hl
        · subst hl
          simp [ho]
        · exact ih hrec l hl

theorem filterNonPet_ok_filter {ls ct : List Layer} (h : filterNonPet ls = .ok ct) :
    ct = ls.filter (fun l => !(isPetNamed l)) := by
  induction ls generalizing ct with
  | nil =>
    simp only [filterNonPet, Except.ok.injEq] at h
    simp [← h]
  | cons x rest ih =>
    rw [filterNonPet] at h
    rcases ho : x.options with _ | o
    · rw [ho] at h
      simp at h
    · rw [ho] at h
      rcases hrec : filterNonPet rest with e | ctr
      · rw [hrec] at h
        simp at h
      · rw [hrec] at h
        simp only [Except.ok.injEq] at h
        subst h
        by_cases hn : (o.name == some petName) = true
        · simp [hn, List.filter_cons, isPetNamed, ho, ih hrec]
        · simp [hn, List.filter_cons, isPetNamed, ho, ih hrec]

theorem filterNonPet_all_pet {ls : List Layer}
    (h : ∀ l ∈ ls, isPetNamed l = true) : filterNonPet ls = .ok [] := by
  induction ls with
  | nil => rfl
  | cons x rest ih =>
    have hx := h x (List.mem_cons_self x rest)
    rcases ho : x.options with _ | o
    · simp [isPetNamed, ho] at hx
    · have hn : (o.name == some petName) = true := by
        simpa [isPetNamed, ho] using hx
      rw [filterNonPet, ho, ih (fun l hl => h l (List.mem_cons_of_mem _ hl))]
      simp [hn]

theorem filter_head?_eq_find? (p : Layer → Bool) (ls : List Layer) :
    (ls.filter p).head? = ls.find? p := by
  induction ls with
  | nil => rfl
  | cons x xs ih =>
    by_cases hx : p x = true
    · simp [List.filter_cons, List.find?, hx]
    · simp [List.filter_cons, List.find?, hx, ih]

theorem afterResync_map_layerId (ee : EnabledElement) :
    (afterResync ee).map Layer.layerId = ee.layers.map Layer.layerId := by
  unfold afterResync resyncLayers
  split
  · rw [List.map_map]
    apply List.map_congr_left
    intro l hl
    by_cases hv : l.viewport.isSome <;> simp [Function.comp, hv]
  · rfl

theorem petStep_pet_no_base (fit : Canvas → Image → ℚ → FitScaleResult) (canvas : Canvas)
    {s : List Layer} {lid : Nat} {l0 : Layer}
    (hfind : findLayer s lid = some l0) (hpet : isPetNamed l0 = true) :
    ∃ e, (petStep fit canvas none s lid).1 = .error e := by
  unfold petStep
  rcases ho : l0.options with _ | o
  · simp [isPetNamed, ho] at hpet
  · have hn : (o.name == some petName) = true := by
      simpa [isPetNamed, ho] using hpet
    simp only [hfind, ho, hn, if_true]
    rcases hi : l0.image with _ | image
    · exact ⟨.typeErrUndefined, rfl⟩
    · rcases hv : l0.viewport with _ | v
      · exact ⟨.typeErrUndefined, rfl⟩
      · exact ⟨.typeErrUndefined, rfl⟩

theorem petStep_pet_no_base_ev (fit : Canvas → Image → ℚ → FitScaleResult) (canvas : Canvas)
    {s : List Layer} {lid : Nat} {l0 : Layer}
    (hfind : findLayer s lid = some l0) (hpet : isPetNamed l0 = true)
    (himg : l0.image.isSome = true) (hvp : l0.viewport.isSome = true) :
    (petStep fit canvas none s lid).1 = .error .typeErrUndefined ∧
    (petStep fit canvas none s lid).2 = [Ev.rescaleCall none lid] := by
  unfold petStep
  rcases ho : l0.options with _ | o
  · simp [isPetNamed, ho] at hpet
  · have hn : (o.name == some petName) = true := by
      simpa [isPetNamed, ho] using hpet
    rcases hi : l0.image with _ | image
    · simp [hi] at himg
    · rcases hv : l0.viewport with _ | v
      · simp [hv] at hvp
      · simp [hfind, ho, hn, hi, hv]

theorem petStep_rescale_base (fit : Canvas → Image → ℚ → FitScaleResult) (canvas : Canvas)
    (base? : Option Layer) (s : List Layer) (lid : Nat) :
    ∀ e ∈ (petStep fit canvas base? s lid).2,
      ∃ tid, e = Ev.rescaleCall (base?.map Layer.layerId) tid := by
  intro e he
  unfold petStep at he
  repeat' split at he
  all_goals simp_all

theorem petProcess_rescale_base (fit : Canvas → Image → ℚ → FitScaleResult) (canvas : Canvas)
    (base? : Option Layer) (s : List Layer) (ids : List Nat) :
    ∀ e ∈ (petProcess fit canvas base? s ids).2,
      ∃ tid, e = Ev.rescaleCall (base?.map Layer.layerId) tid := by
  induction ids generalizing s with
  | nil =>
    intro e he
    simp [petProcess] at he
  | cons lid rest ih =>
    intro e he
    rw [petProcess] at he
    rcases hst : (petStep fit canvas base? s lid).1 with e1 | s1
    · rw [hst] at he
      exact petStep_rescale_base fit canvas base? s lid e he
    · rw [hst] at he
      simp only [List.mem_append] at he
      rcases he with he | he
      · exact petStep_rescale_base fit canvas base? s lid e he
      · exact ih s1 e he

/-- Claim C10: whenever some layer is named "PET" with a pending resize
request: (a) the render completes without throwing only if every layer
has an options object and at least one non-PET layer exists; (b) if all
layers are named "PET" (with images and viewports present), the rescale
is invoked with an undefined base layer and the call fails before any
drawing touches the canvas; and (c) every rescale invocation of the
branch passes the first layer whose options name is not "PET" as its
base. -/
theorem drawCompositeImage_pet_safety (trig : ℚ → ℚ × ℚ)
    (fit : Canvas → Image → ℚ → FitScaleResult) (ee : EnabledElement) (invalidated : Bool)
    (hb : bResetPetScale (afterResync ee) = true) :
    ((∃ ee' evs, drawCompositeImage trig fit ee invalidated = (.ok ee', evs)) →
      (∀ l ∈ afterResync ee, l.options.isSome = true) ∧
      (∃ l ∈ afterResync ee, isPetNamed l = false)) ∧
    ((∀ l ∈ afterResync ee, isPetNamed l = true ∧ l.image.isSome = true ∧
        l.viewport.isSome = true) →
      (∃ e, (drawCompositeImage trig fit ee invalidated).1 = .error e) ∧
      (∃ tid, Ev.rescaleCall none tid ∈ (drawCompositeImage trig fit ee invalidated).2) ∧
      (∀ e ∈ (drawCompositeImage trig fit ee invalidated).2, e.touchesCanvas = false)) ∧
    (∀ bid tid, Ev.rescaleCall bid tid ∈ (drawCompositeImage trig fit ee invalidated).2 →
      bid = ((afterResync ee).find? (fun l => !(isPetNamed l))).map Layer.layerId) := by
  have hne : afterResync ee ≠ [] := by
    rcases List.any_eq_true.mp hb with ⟨l, hl, _⟩
    intro hh
    rw [hh] at hl
    cases hl
  obtain ⟨l0, rest0, hls⟩ := List.exists_cons_of_ne_nil hne
  have hfind : findLayer (afterResync ee) l0.layerId = some l0 := by
    rw [hls]
    simp [findLayer]
  have hids : ee.layers.map Layer.layerId = l0.layerId :: rest0.map Layer.layerId := by
    rw [← afterResync_map_layerId, hls]
    simp
  have hl0mem : l0 ∈ afterResync ee := by
    rw [hls]
    exact List.mem_cons_self _ _
  refine ⟨?_, ?_, ?_⟩
  · rintro ⟨ee', evs, hrun⟩
    rcases hct : filterNonPet (afterResync ee) with efe | ct
    · unfold drawCompositeImage at hrun
      simp only [hb, if_true, hct] at hrun
      simp at hrun
    · refine ⟨filterNonPet_ok_options hct, ?_⟩
      by_contra hno
      push_neg at hno
      have hall : ∀ l ∈ afterResync ee, isPetNamed l = true := by
        intro l hl
        cases hi : isPetNamed l
        · exact absurd hi (hno l hl)
        · rfl
      have hct0 := filterNonPet_all_pet hall
      have hcteq : ct = [] := by
        rw [hct0] at hct
        simpa using hct.symm
      subst hcteq
      obtain ⟨e0, hp1⟩ := petStep_pet_no_base fit ee.canvas hfind (hall l0 hl0mem)
      unfold drawCompositeImage at hrun
      simp only [hb, if_true, hct, List.head?_nil] at hrun
      rw [hids, petProcess, hp1] at hrun
      simp at hrun
  · intro hall2
    have hall : ∀ l ∈ afterResync ee, isPetNamed l = true := fun l hl => (hall2 l hl).1
    have hct0 := filterNonPet_all_pet hall
    obtain ⟨hp1, hp2⟩ := petStep_pet_no_base_ev fit ee.canvas hfind (hall l0 hl0mem)
      (hall2 l0 hl0mem).2.1 (hall2 l0 hl0mem).2.2
    have hpp : petProcess fit ee.canvas none (afterResync ee) (ee.layers.map Layer.layerId) =
        (.error .typeErrUndefined, [Ev.rescaleCall none l0.layerId]) := by
      rw [hids, petProcess, hp1, hp2]
    have hrun_eq : drawCompositeImage trig fit ee invalidated =
        (.error .typeErrUndefined, [Ev.rescaleCall none l0.layerId]) := by
      unfold drawCompositeImage
      simp only [hct0, hb, if_true, List.head?_nil, hpp]
    rw [hrun_eq]
    refine ⟨⟨.typeErrUndefined, rfl⟩, ⟨l0.layerId, by simp⟩, ?_⟩
    intro e he
    simp only [List.mem_singleton] at he
    subst he
    rfl
  · intro bid tid hmem
    rcases hct : filterNonPet (afterResync ee) with efe | ct
    · have hlog : (drawCompositeImage trig fit ee invalidated).2 = [] := by
        unfold drawCompositeImage
        simp [hb, hct]
      rw [hlog] at hmem
      simp at hmem
    · have hcthead : ct.head? = (afterResync ee).find? (fun l => !(isPetNamed l)) := by
        rw [filterNonPet_ok_filter hct, filter_head?_eq_find?]
      rcases hpp : petProcess fit ee.canvas ct.head? (afterResync ee)
          (ee.layers.map Layer.layerId) with ⟨r, petEv⟩
      have hbase : ∀ e ∈ petEv, ∃ t2, e = Ev.rescaleCall (ct.head?.map Layer.layerId) t2 := by
        intro e he
        have h := petProcess_rescale_base fit ee.canvas ct.head? (afterResync ee)
          (ee.layers.map Layer.layerId) e
        rw [hpp] at h
        exact h he
      rcases r with e1 | s1
      · have hlog : (drawCompositeImage trig fit ee invalidated).2 = petEv := by
          unfold drawCompositeImage
          simp only [hb, if_true, hct, hpp]
        rw [hlog] at hmem
        obtain ⟨t2, ht⟩ := hbase _ hmem
        simp only [Ev.rescaleCall.injEq] at ht
        rw [ht.1, hcthead]
      · cases hsv : ee.syncViewports with
        | false =>
          rcases hrl : renderLayers trig ee.canvas ee.activeLayerId invalidated
              (syncViewports s1 (visibleIds ee.layers) ee.activeLayerId)
              (visibleIds ee.layers) 0 with ⟨r3, ev3⟩
          have hev3 : ∀ e ∈ ev3, e.isRescaleCall = false := by
            intro e he
            have h := renderLayers_events trig ee.canvas ee.activeLayerId invalidated
              (syncViewports s1 (visibleIds ee.layers) ee.activeLayerId)
              (visibleIds ee.layers) 0 e
            rw [hrl] at h
            exact (h he).2
          have hlog : (drawCompositeImage trig fit ee invalidated).2 =
              petEv ++ [Ev.syncPass (visibleIds ee.layers) ee.activeLayerId] ++
                [Ev.clearCanvas] ++ ev3 := by
            unfold drawCompositeImage
            simp only [hb, if_true, hct, hpp, hsv, Bool.false_eq_true, if_false]
            rcases r3 with e3 | s4 <;> simp [hrl]
          rw [hlog] at hmem
          rcases List.mem_append.mp hmem with hmem | hmem
          · rcases List.mem_append.mp hmem with hmem | hmem
            · rcases List.mem_append.mp hmem with hmem | hmem
              · obtain ⟨t2, ht⟩ := hbase _ hmem
                simp only [Ev.rescaleCall.injEq] at ht
                rw [ht.1, hcthead]
              · simp at hmem
            · simp at hmem
          · have h := hev3 _ hmem
            simp [Ev.isRescaleCall] at h
        | true =>
          rcases hrl : renderLayers trig ee.canvas ee.activeLayerId invalidated
              (syncViewports (syncViewports s1 (visibleIds ee.layers) ee.activeLayerId)
                (visibleIds ee.layers) ee.activeLayerId)
              (visibleIds ee.layers) 0 with ⟨r3, ev3⟩
          have hev3 : ∀ e ∈ ev3, e.isRescaleCall = false := by
            intro e he
            have h := renderLayers_events trig ee.canvas ee.activeLayerId invalidated
              (syncViewports (syncViewports s1 (visibleIds ee.layers) ee.activeLayerId)
                (visibleIds ee.layers) ee.activeLayerId)
              (visibleIds ee.layers) 0 e
            rw [hrl] at h
            exact (h he).2
          have hlog : (drawCompositeImage trig fit ee invalidated).2 =
              petEv ++ [Ev.syncPass (visibleIds ee.layers) ee.activeLayerId] ++
                [Ev.syncPass (visibleIds ee.layers) ee.activeLayerId] ++
                [Ev.clearCanvas] ++ ev3 := by
            unfold drawCompositeImage
            simp only [hb, if_true, hct, hpp, hsv]
            rcases r3 with e3 | s4 <;> simp [hrl]
          rw [hlog] at hmem
          rcases List.mem_append.mp hmem with hmem | hmem
          · rcases List.mem_append.mp hmem with hmem | hmem
            · rcases List.mem_append.mp hmem with hmem | hmem
              · rcases List.mem_append.mp hmem with hmem | hmem
                · obtain ⟨t2, ht⟩ := hbase _ hmem
                  simp only [Ev.rescaleCall.injEq] at ht
                  rw [ht.1, hcthead]
                · simp at hmem
              · simp at hmem
            · simp at hmem
          · have h := hev3 _ hmem
            simp [Ev.isRescaleCall] at h

/-- Enabled element for the C10 witness: a registry in which every
layer is named "PET", with a pending resize request. -/
def c10EE : EnabledElement :=
  { layers := [c5PET], activeLayerId := 2, syncViewports := false,
    lastSyncViewportsState := false, canvas := { width := 100, height := 100 } }

/-- Witness for claim C10: with every layer named "PET", the rescale is
invoked with an undefined base layer and the call fails before any
canvas drawing. -/
theorem drawCompositeImage_pet_safety_witness :
    bResetPetScale (afterResync c10EE) = true ∧
    (∀ l ∈ afterResync c10EE, isPetNamed l = true ∧ l.image.isSome = true ∧
      l.viewport.isSome = true) ∧
    ((∃ e, (drawCompositeImage c5Trig c5Fit c10EE false).1 = .error e) ∧
      (∃ tid, Ev.rescaleCall none tid ∈ (drawCompositeImage c5Trig c5Fit c10EE false).2) ∧
      (∀ e ∈ (drawCompositeImage c5Trig c5Fit c10EE false).2, e.touchesCanvas = false)) :=
  ⟨by decide, by decide,
    (drawCompositeImage_pet_safety c5Trig c5Fit c10EE false (by decide)).2.1 (by decide)⟩
